import Mathlib

/-!
# Shallow embedding of `rep_counter.py` (class `RepCounter`)

This file models the rep-counting core of the repository: the stability
buffer, the hysteretic state classifier, the debouncing transition
confirmer, the rep lifecycle tracker, the form-feedback advisor and the
per-limb reset, together with theorems settling the specification claims.

Angles and timestamps are Python floats in the source; they are embedded
as rationals (`ℚ`), on which all the arithmetic of the source (addition,
subtraction, division by 3, comparisons, `abs`, `min`) is exact.
`random.choice` on the compliment list is modelled by an oracle argument
`pick : ℕ` supplied with each sample: the chosen phrase is
`compliments[pick % 6]`, so any behaviour of the random generator is
represented by some choice of `pick`.
-/

namespace RepCounting

/-- The four discrete arm stages (`ArmStage` in `constants.py`): the
committed-state alphabet used by the classifier and the state machine. -/
inductive Stage where
  | UP
  | DOWN
  | MOVING_UP
  | MOVING_DOWN
deriving DecidableEq, Repr

/-- The limb identifier: the source keys its per-limb dictionaries by the
strings `'RIGHT'` and `'LEFT'`. -/
inductive Arm where
  | RIGHT
  | LEFT
deriving DecidableEq, Repr

/-- The caller-owned per-limb metrics record mutated in place by
`process_rep` (fields read and written by `rep_counter.py`). -/
structure Metrics where
  angle : ℚ
  stage : Stage
  rep_count : ℕ
  rep_time : ℚ
  min_rep_time : ℚ
  curr_rep_time : ℚ
  last_down_time : ℚ
  feedback : String
deriving DecidableEq, Repr

/-- The caller-owned aggregated history record.  The source increments the
attribute named `f"{arm.lower()}_feedback_count"`, i.e. one counter per
arm (`right_feedback_count` / `left_feedback_count`), shared by every
feedback condition. -/
structure History where
  right_feedback_count : ℕ
  left_feedback_count : ℕ
deriving DecidableEq, Repr

/-- Read the per-arm feedback counter (`getattr(history, feedback_key)`). -/
def History.count (h : History) : Arm → ℕ
  | Arm.RIGHT => h.right_feedback_count
  | Arm.LEFT => h.left_feedback_count

/-- `setattr(history, feedback_key, getattr(history, feedback_key) + 1)`:
increment the one per-arm feedback counter. -/
def History.bump (h : History) : Arm → History
  | Arm.RIGHT => { h with right_feedback_count := h.right_feedback_count + 1 }
  | Arm.LEFT => { h with left_feedback_count := h.left_feedback_count + 1 }

/-- The per-arm slice of the `RepCounter` instance state: one entry of each
of the dictionaries `angle_history`, `pending_state`, `pending_state_start`,
`rep_start_time`, `last_rep_time` and `current_compliment`.  The angle
buffer is a list with the newest sample last (a `deque(maxlen=8)`). -/
structure ArmState where
  angle_history : List ℚ
  pending_state : Option Stage
  pending_state_start : ℚ
  rep_start_time : ℚ
  last_rep_time : ℚ
  current_compliment : String
deriving DecidableEq, Repr

/-- The `RepCounter` instance: calibration thresholds, the configuration
constants set in `__init__`, and the two per-arm state slices. -/
structure RepCounter where
  contracted_threshold : ℚ
  extended_threshold : ℚ
  min_rep_duration : ℚ
  state_hold_time : ℚ
  hysteresis_margin : ℚ
  right : ArmState
  left : ArmState
deriving DecidableEq, Repr

/-- Dictionary read `self.<dict>[arm]`, bundled per arm. -/
def RepCounter.armGet (rc : RepCounter) : Arm → ArmState
  | Arm.RIGHT => rc.right
  | Arm.LEFT => rc.left

/-- Dictionary write `self.<dict>[arm] = ...`, bundled per arm. -/
def RepCounter.armSet (rc : RepCounter) (arm : Arm) (a : ArmState) : RepCounter :=
  match arm with
  | Arm.RIGHT => { rc with right := a }
  | Arm.LEFT => { rc with left := a }

/-- The fixed compliment phrase list of `__init__`. -/
def compliments : List String :=
  ["Looking Strong!", "Great Control!", "Perfect Form!",
   "Keep Pushing!", "Solid Rep!", "Nice Pace!"]

/-- The fresh per-arm state produced by `__init__` (empty buffer, no
pending candidate, all timestamps 0, default compliment). -/
def ArmState.init : ArmState :=
  { angle_history := []
    pending_state := none
    pending_state_start := 0
    rep_start_time := 0
    last_rep_time := 0
    current_compliment := "Maintain Form" }

/-- `RepCounter.__init__(calibration_data, min_rep_duration=0.6)`:
`state_hold_time = 0.15`, `hysteresis_margin = 5`. -/
def RepCounter.init (contracted extended : ℚ) (min_rep_duration : ℚ := 3/5) :
    RepCounter :=
  { contracted_threshold := contracted
    extended_threshold := extended
    min_rep_duration := min_rep_duration
    state_hold_time := 3/20
    hysteresis_margin := 5
    right := ArmState.init
    left := ArmState.init }

/-- `deque(maxlen=n).append`: push `x` at the newest end, evicting from the
oldest end whenever the length would exceed `n`. -/
def dequePush (maxlen : ℕ) (xs : List ℚ) (x : ℚ) : List ℚ :=
  let ys := xs ++ [x]
  if maxlen < ys.length then ys.drop (ys.length - maxlen) else ys

/-- `RepCounter._determine_target_state` (lines 102–129): pure hysteretic
classifier from (angle, thresholds, current stage) to the target stage,
with margin `m = self.hysteresis_margin`. -/
def determineTargetState (margin angle contracted extended : ℚ)
    (current_stage : Stage) : Stage :=
  if angle ≤ contracted - margin then Stage.UP
  else if angle ≥ extended + margin then Stage.DOWN
  else
    match current_stage with
    | Stage.UP =>
        if angle < contracted + margin then Stage.UP else Stage.MOVING_DOWN
    | Stage.DOWN =>
        if angle > extended - margin then Stage.DOWN else Stage.MOVING_UP
    | Stage.MOVING_UP =>
        if angle ≤ contracted - margin then Stage.UP
        else if angle ≥ extended + margin then Stage.DOWN
        else Stage.MOVING_UP
    | Stage.MOVING_DOWN =>
        if angle ≥ extended + margin then Stage.DOWN
        else if angle ≤ contracted - margin then Stage.UP
        else Stage.MOVING_DOWN

/-- `RepCounter._handle_state_transition` (lines 131–158): commit the new
stage; on a `UP → {MOVING_DOWN, DOWN}` commit close the rep cycle when it
lasted at least `min_rep_duration`; on other commits into `DOWN` record
`rep_start_time`; on commits into `UP` with `rep_start_time` still at the
0 sentinel, set it.  `random.choice(self.compliments)` is modelled by the
oracle index `pick`. -/
def handleStateTransition (rc : RepCounter) (arm : Arm)
    (prev_stage new_stage : Stage) (metrics : Metrics) (current_time : ℚ)
    (pick : ℕ) : RepCounter × Metrics :=
  let metrics := { metrics with stage := new_stage }
  if prev_stage = Stage.UP then
    if new_stage = Stage.MOVING_DOWN ∨ new_stage = Stage.DOWN then
      let rep_time := current_time - metrics.last_down_time
      if rep_time ≥ rc.min_rep_duration then
        let metrics :=
          { metrics with
            rep_count := metrics.rep_count + 1
            rep_time := rep_time
            min_rep_time :=
              if metrics.min_rep_time = 0 then rep_time
              else min rep_time metrics.min_rep_time
            last_down_time := current_time
            curr_rep_time := 0 }
        let a := rc.armGet arm
        let a :=
          { a with
            last_rep_time := current_time
            current_compliment :=
              compliments.getD (pick % compliments.length) "Maintain Form" }
        (rc.armSet arm a, metrics)
      else (rc, metrics)
    else (rc, metrics)
  else if new_stage = Stage.DOWN then
    let a := rc.armGet arm
    (rc.armSet arm { a with rep_start_time := current_time }, metrics)
  else if new_stage = Stage.UP then
    let a := rc.armGet arm
    if a.rep_start_time = 0 then
      (rc.armSet arm { a with rep_start_time := current_time }, metrics)
    else (rc, metrics)
  else (rc, metrics)

/-- `RepCounter._provide_form_feedback` (lines 160–207): priority-ordered
feedback with early returns — safety limits, stall correction (only when
`velocity < 0.5`), then compliment / "Maintain Form".  Every warning
branch increments the single per-arm feedback counter. -/
def provideFormFeedback (rc : RepCounter) (angle : ℚ) (metrics : Metrics)
    (contracted extended : ℚ) (arm : Arm) (history : History)
    (velocity current_time : ℚ) : Metrics × History :=
  if angle > 178 then
    ({ metrics with feedback := "Over Extending" }, history.bump arm)
  else if angle < 2 then
    ({ metrics with feedback := "Over Curling" }, history.bump arm)
  else
    let is_stalled := velocity < 1/2
    if is_stalled ∧
        (metrics.stage = Stage.MOVING_UP ∨ metrics.stage = Stage.UP) ∧
        angle > contracted + 10 then
      ({ metrics with feedback := "Curl Higher" }, history.bump arm)
    else if is_stalled ∧
        (metrics.stage = Stage.MOVING_DOWN ∨ metrics.stage = Stage.DOWN) ∧
        angle < extended - 10 then
      ({ metrics with feedback := "Extend Fully" }, history.bump arm)
    else if current_time - (rc.armGet arm).last_rep_time < 2 then
      ({ metrics with feedback := (rc.armGet arm).current_compliment }, history)
    else
      ({ metrics with feedback := "Maintain Form" }, history)

/-- The velocity expression of `process_rep` line 63:
`abs(recent_angles[-1] - recent_angles[-4]) / 3` on the buffer contents
(newest last). -/
def bufVelocity (buf : List ℚ) : ℚ :=
  |buf.getD (buf.length - 1) 0 - buf.getD (buf.length - 4) 0| / 3

/-- `RepCounter.process_rep` (lines 54–100): record the raw angle, push it
into the stability buffer, short-circuit with fewer than 4 samples,
otherwise classify, run the transition confirmer, refresh `curr_rep_time`
while committed `UP`, and run the feedback advisor. -/
def processRep (rc : RepCounter) (arm : Arm) (angle : ℚ) (metrics : Metrics)
    (current_time : ℚ) (history : History) (pick : ℕ) :
    RepCounter × Metrics × History :=
  let metrics := { metrics with angle := angle }
  let a0 := rc.armGet arm
  let buf := dequePush 8 a0.angle_history angle
  let rc := rc.armSet arm { a0 with angle_history := buf }
  if buf.length < 4 then (rc, metrics, history)
  else
    let velocity := bufVelocity buf
    let prev_stage := metrics.stage
    let contracted := rc.contracted_threshold
    let extended := rc.extended_threshold
    let target_state :=
      determineTargetState rc.hysteresis_margin angle contracted extended prev_stage
    let confirmed :=
      if target_state ≠ prev_stage then
        if (rc.armGet arm).pending_state = some target_state then
          if current_time - (rc.armGet arm).pending_state_start ≥ rc.state_hold_time
              ∧ velocity < 15 then
            handleStateTransition rc arm prev_stage target_state metrics
              current_time pick
          else (rc, metrics)
        else
          let a := rc.armGet arm
          (rc.armSet arm
            { a with pending_state := some target_state
                     pending_state_start := current_time }, metrics)
      else
        let a := rc.armGet arm
        (rc.armSet arm { a with pending_state := none }, metrics)
    let rc2 := confirmed.1
    let metrics2 :=
      if confirmed.2.stage = Stage.UP then
        { confirmed.2 with
          curr_rep_time := current_time - (rc2.armGet arm).rep_start_time }
      else confirmed.2
    let fed :=
      provideFormFeedback rc2 angle metrics2 contracted extended arm history
        velocity current_time
    (rc2, fed.1, fed.2)

/-- `RepCounter.reset_arm` (lines 209–213): clear the buffer, the pending
candidate and its start timestamp, and zero `rep_start_time`, for the one
given arm. -/
def resetArm (rc : RepCounter) (arm : Arm) : RepCounter :=
  let a := rc.armGet arm
  rc.armSet arm
    { a with angle_history := []
             pending_state := none
             pending_state_start := 0
             rep_start_time := 0 }

/-- One input sample as supplied by the caller: the limb, the raw angle,
the monotonic timestamp, and the oracle value standing for the random
compliment draw. -/
structure Input where
  arm : Arm
  angle : ℚ
  time : ℚ
  pick : ℕ
deriving DecidableEq, Repr

/-- The whole system as the caller sees it: the counter instance, one
metrics record per limb, and the history record. -/
structure SysState where
  rc : RepCounter
  right_metrics : Metrics
  left_metrics : Metrics
  hist : History
deriving DecidableEq, Repr

/-- The metrics record the caller passes for a given limb. -/
def SysState.metricsOf (s : SysState) : Arm → Metrics
  | Arm.RIGHT => s.right_metrics
  | Arm.LEFT => s.left_metrics

/-- One caller iteration: feed the sample for its limb through
`process_rep`, storing back the updated counter, metrics and history. -/
def sysStep (s : SysState) (i : Input) : SysState :=
  match i.arm with
  | Arm.RIGHT =>
      let r := processRep s.rc Arm.RIGHT i.angle s.right_metrics i.time s.hist i.pick
      { rc := r.1, right_metrics := r.2.1, left_metrics := s.left_metrics,
        hist := r.2.2 }
  | Arm.LEFT =>
      let r := processRep s.rc Arm.LEFT i.angle s.left_metrics i.time s.hist i.pick
      { rc := r.1, right_metrics := s.right_metrics, left_metrics := r.2.1,
        hist := r.2.2 }

/-- Run the caller loop over a list of samples. -/
def sysRun (s : SysState) (l : List Input) : SysState := l.foldl sysStep s

/-! ## Basic lemmas about the per-arm state dictionaries -/

@[simp] lemma armGet_armSet_same (rc : RepCounter) (arm : Arm) (a : ArmState) :
    (rc.armSet arm a).armGet arm = a := by
  cases arm <;> rfl

lemma armGet_armSet_other (rc : RepCounter) (arm arm' : Arm) (a : ArmState)
    (h : arm ≠ arm') : (rc.armSet arm a).armGet arm' = rc.armGet arm' := by
  cases arm <;> cases arm' <;> simp_all [RepCounter.armSet, RepCounter.armGet]

@[simp] lemma armSet_contracted (rc : RepCounter) (arm : Arm) (a : ArmState) :
    (rc.armSet arm a).contracted_threshold = rc.contracted_threshold := by
  cases arm <;> rfl

@[simp] lemma armSet_extended (rc : RepCounter) (arm : Arm) (a : ArmState) :
    (rc.armSet arm a).extended_threshold = rc.extended_threshold := by
  cases arm <;> rfl

@[simp] lemma armSet_min_rep_duration (rc : RepCounter) (arm : Arm) (a : ArmState) :
    (rc.armSet arm a).min_rep_duration = rc.min_rep_duration := by
  cases arm <;> rfl

@[simp] lemma armSet_state_hold_time (rc : RepCounter) (arm : Arm) (a : ArmState) :
    (rc.armSet arm a).state_hold_time = rc.state_hold_time := by
  cases arm <;> rfl

@[simp] lemma armSet_hysteresis_margin (rc : RepCounter) (arm : Arm) (a : ArmState) :
    (rc.armSet arm a).hysteresis_margin = rc.hysteresis_margin := by
  cases arm <;> rfl

/-! ## C3: the hysteretic classifier -/

/-- C3.  The classifier `_determine_target_state` (with its margin of 5°)
sends any angle at or below `contracted - 5` to `UP` and any angle at or
above `extended + 5` to `DOWN`, for every current stage; strictly between
those hard bounds it is sticky: from `UP` it stays `UP` exactly while
`angle < contracted + 5` and otherwise moves to `MOVING_DOWN`, from `DOWN`
it stays `DOWN` exactly while `angle > extended - 5` and otherwise moves to
`MOVING_UP`, and from either moving stage it stays in that moving stage.
The calibration is assumed ordered (`contracted ≤ extended`). -/
theorem classifier_hysteresis (contracted extended angle : ℚ) (st : Stage)
    (hce : contracted ≤ extended) :
    (angle ≤ contracted - 5 →
       determineTargetState 5 angle contracted extended st = Stage.UP) ∧
    (angle ≥ extended + 5 →
       determineTargetState 5 angle contracted extended st = Stage.DOWN) ∧
    (contracted - 5 < angle → angle < extended + 5 →
       (determineTargetState 5 angle contracted extended Stage.UP =
          if angle < contracted + 5 then Stage.UP else Stage.MOVING_DOWN) ∧
       (determineTargetState 5 angle contracted extended Stage.DOWN =
          if angle > extended - 5 then Stage.DOWN else Stage.MOVING_UP) ∧
       determineTargetState 5 angle contracted extended Stage.MOVING_UP =
         Stage.MOVING_UP ∧
       determineTargetState 5 angle contracted extended Stage.MOVING_DOWN =
         Stage.MOVING_DOWN) := by
  refine ⟨?_, ?_, ?_⟩
  · intro h
    cases st <;> simp [determineTargetState, h]
  · intro h
    have hnot : ¬ angle ≤ contracted - 5 := by linarith
    cases st <;> simp [determineTargetState, hnot, h]
  · intro h1 h2
    have hnot : ¬ angle ≤ contracted - 5 := by linarith
    have hnot2 : ¬ angle ≥ extended + 5 := by linarith
    refine ⟨?_, ?_, ?_, ?_⟩ <;>
      simp [determineTargetState, hnot, hnot2]

/-- Concrete instance of `classifier_hysteresis`: with calibration 40/160,
an angle of 30° is classified `UP` from the `MOVING_UP` stage. -/
theorem classifier_hysteresis_witness :
    (40 : ℚ) ≤ 160 ∧
    determineTargetState 5 30 40 160 Stage.MOVING_UP = Stage.UP := by
  refine ⟨by norm_num, ?_⟩
  exact (classifier_hysteresis 40 160 30 Stage.MOVING_UP (by norm_num)).1
    (by norm_num)

/-! ## C4: the feedback advisor -/

/-- The advisor's rule list exactly as the specification words it, in
strict first-match-wins priority: (1) safety, checked regardless of stage
or velocity; (2) stall correction, only when `velocity < 0.5`; (3) the
compliment while less than 2 seconds have elapsed since the last counted
rep, else "Maintain Form".  Returns the feedback string together with
whether a history counter is to be incremented. -/
def advisorSpec (stage : Stage) (angle contracted extended velocity elapsed : ℚ)
    (compliment : String) : String × Bool :=
  if angle > 178 then ("Over Extending", true)
  else if angle < 2 then ("Over Curling", true)
  else if velocity < 1/2 ∧ (stage = Stage.UP ∨ stage = Stage.MOVING_UP) ∧
      angle > contracted + 10 then ("Curl Higher", true)
  else if velocity < 1/2 ∧ (stage = Stage.DOWN ∨ stage = Stage.MOVING_DOWN) ∧
      angle < extended - 10 then ("Extend Fully", true)
  else if elapsed < 2 then (compliment, false)
  else ("Maintain Form", false)

/-- Helper: the advisor equals its priority-list specification.  All
feedback facts below are derived from this equation. -/
lemma feedbackSpec_eq (rc : RepCounter) (angle : ℚ) (m : Metrics)
    (contracted extended : ℚ) (arm : Arm) (h : History) (velocity t : ℚ) :
    provideFormFeedback rc angle m contracted extended arm h velocity t =
      (let spec := advisorSpec m.stage angle contracted extended velocity
         (t - (rc.armGet arm).last_rep_time) (rc.armGet arm).current_compliment
       ({ m with feedback := spec.1 }, if spec.2 then h.bump arm else h)) := by
  simp only [provideFormFeedback, advisorSpec]
  split_ifs <;> simp_all

/-- Helper: the advisor changes the metrics record only in its feedback
field. -/
lemma pff_fst (rc : RepCounter) (angle : ℚ) (m : Metrics)
    (contracted extended : ℚ) (arm : Arm) (h : History) (velocity t : ℚ) :
    (provideFormFeedback rc angle m contracted extended arm h velocity t).1 =
      { m with
        feedback := (advisorSpec m.stage angle contracted extended velocity
          (t - (rc.armGet arm).last_rep_time)
          (rc.armGet arm).current_compliment).1 } := by
  simp [feedbackSpec_eq]

/-- Helper: the advisor either leaves the history unchanged or bumps the
sample's arm counter, according to the priority list. -/
lemma pff_snd (rc : RepCounter) (angle : ℚ) (m : Metrics)
    (contracted extended : ℚ) (arm : Arm) (h : History) (velocity t : ℚ) :
    (provideFormFeedback rc angle m contracted extended arm h velocity t).2 =
      (if (advisorSpec m.stage angle contracted extended velocity
            (t - (rc.armGet arm).last_rep_time)
            (rc.armGet arm).current_compliment).2
       then h.bump arm else h) := by
  simp [feedbackSpec_eq]

@[simp] lemma pff_fst_angle (rc : RepCounter) (angle : ℚ) (m : Metrics)
    (contracted extended : ℚ) (arm : Arm) (h : History) (velocity t : ℚ) :
    (provideFormFeedback rc angle m contracted extended arm h velocity t).1.angle =
      m.angle := by
  simp [pff_fst]

@[simp] lemma pff_fst_stage (rc : RepCounter) (angle : ℚ) (m : Metrics)
    (contracted extended : ℚ) (arm : Arm) (h : History) (velocity t : ℚ) :
    (provideFormFeedback rc angle m contracted extended arm h velocity t).1.stage =
      m.stage := by
  simp [pff_fst]

@[simp] lemma pff_fst_rep_count (rc : RepCounter) (angle : ℚ) (m : Metrics)
    (contracted extended : ℚ) (arm : Arm) (h : History) (velocity t : ℚ) :
    (provideFormFeedback rc angle m contracted extended arm h velocity
      t).1.rep_count = m.rep_count := by
  simp [pff_fst]

@[simp] lemma pff_fst_rep_time (rc : RepCounter) (angle : ℚ) (m : Metrics)
    (contracted extended : ℚ) (arm : Arm) (h : History) (velocity t : ℚ) :
    (provideFormFeedback rc angle m contracted extended arm h velocity
      t).1.rep_time = m.rep_time := by
  simp [pff_fst]

@[simp] lemma pff_fst_min_rep_time (rc : RepCounter) (angle : ℚ) (m : Metrics)
    (contracted extended : ℚ) (arm : Arm) (h : History) (velocity t : ℚ) :
    (provideFormFeedback rc angle m contracted extended arm h velocity
      t).1.min_rep_time = m.min_rep_time := by
  simp [pff_fst]

@[simp] lemma pff_fst_curr_rep_time (rc : RepCounter) (angle : ℚ) (m : Metrics)
    (contracted extended : ℚ) (arm : Arm) (h : History) (velocity t : ℚ) :
    (provideFormFeedback rc angle m contracted extended arm h velocity
      t).1.curr_rep_time = m.curr_rep_time := by
  simp [pff_fst]

@[simp] lemma pff_fst_last_down_time (rc : RepCounter) (angle : ℚ) (m : Metrics)
    (contracted extended : ℚ) (arm : Arm) (h : History) (velocity t : ℚ) :
    (provideFormFeedback rc angle m contracted extended arm h velocity
      t).1.last_down_time = m.last_down_time := by
  simp [pff_fst]

/-- C4.  `_provide_form_feedback` implements exactly the specified
first-match-wins priority list: safety limits (angle > 178 → "Over
Extending", angle < 2 → "Over Curling") regardless of stage and velocity,
then stall correction gated on `velocity < 0.5` ("Curl Higher" when the
stage is `UP`/`MOVING_UP` and `angle > contracted + 10`, "Extend Fully"
when the stage is `DOWN`/`MOVING_DOWN` and `angle < extended - 10`), then
the stored compliment while less than 2 seconds have elapsed since the
last counted rep, and "Maintain Form" otherwise; the metrics record is
changed only in its feedback field, and the per-arm history counter is
incremented exactly on the safety/correction outcomes. -/
theorem advisor_priority (rc : RepCounter) (angle : ℚ) (m : Metrics)
    (contracted extended : ℚ) (arm : Arm) (h : History) (velocity t : ℚ) :
    provideFormFeedback rc angle m contracted extended arm h velocity t =
      (let spec := advisorSpec m.stage angle contracted extended velocity
         (t - (rc.armGet arm).last_rep_time) (rc.armGet arm).current_compliment
       ({ m with feedback := spec.1 }, if spec.2 then h.bump arm else h)) :=
  feedbackSpec_eq rc angle m contracted extended arm h velocity t

/-! ## Case lemmas for `_handle_state_transition` -/

/-- Helper: on a `UP → MOVING_DOWN/DOWN` commit with a long enough cycle,
the rep is counted: all metric updates and the compliment trigger. -/
lemma hst_counted (rc : RepCounter) (arm : Arm) (prev new : Stage)
    (m : Metrics) (t : ℚ) (pick : ℕ) (hprev : prev = Stage.UP)
    (hnew : new = Stage.MOVING_DOWN ∨ new = Stage.DOWN)
    (hdur : t - m.last_down_time ≥ rc.min_rep_duration) :
    handleStateTransition rc arm prev new m t pick =
      (rc.armSet arm
        { rc.armGet arm with
          last_rep_time := t
          current_compliment :=
            compliments.getD (pick % compliments.length) "Maintain Form" },
       { m with
         stage := new
         rep_count := m.rep_count + 1
         rep_time := t - m.last_down_time
         min_rep_time :=
           if m.min_rep_time = 0 then t - m.last_down_time
           else min (t - m.last_down_time) m.min_rep_time
         last_down_time := t
         curr_rep_time := 0 }) := by
  subst hprev
  rcases hnew with h | h <;> subst h <;>
    simp [handleStateTransition, hdur]

/-- Helper: on a `UP → MOVING_DOWN/DOWN` commit with a too-short cycle,
only the stage changes; every counter and timing field is untouched. -/
lemma hst_fast (rc : RepCounter) (arm : Arm) (prev new : Stage)
    (m : Metrics) (t : ℚ) (pick : ℕ) (hprev : prev = Stage.UP)
    (hnew : new = Stage.MOVING_DOWN ∨ new = Stage.DOWN)
    (hdur : ¬ t - m.last_down_time ≥ rc.min_rep_duration) :
    handleStateTransition rc arm prev new m t pick =
      (rc, { m with stage := new }) := by
  subst hprev
  rcases hnew with h | h <;> subst h <;>
    simp [handleStateTransition, hdur]

/-- Helper: a commit out of `UP` into a stage other than
`MOVING_DOWN`/`DOWN` changes only the stage. -/
lemma hst_up_other (rc : RepCounter) (arm : Arm) (prev new : Stage)
    (m : Metrics) (t : ℚ) (pick : ℕ) (hprev : prev = Stage.UP)
    (hnew : ¬ (new = Stage.MOVING_DOWN ∨ new = Stage.DOWN)) :
    handleStateTransition rc arm prev new m t pick =
      (rc, { m with stage := new }) := by
  subst hprev
  push_neg at hnew
  cases new <;> simp_all [handleStateTransition]

/-- Helper: a commit into `DOWN` from a stage other than `UP` records
`rep_start_time = now` and changes nothing else besides the stage. -/
lemma hst_into_down (rc : RepCounter) (arm : Arm) (prev : Stage)
    (m : Metrics) (t : ℚ) (pick : ℕ) (hprev : prev ≠ Stage.UP) :
    handleStateTransition rc arm prev Stage.DOWN m t pick =
      (rc.armSet arm { rc.armGet arm with rep_start_time := t },
       { m with stage := Stage.DOWN }) := by
  simp [handleStateTransition, hprev]

/-- Helper: a commit into `UP` from a stage other than `UP`: the
`rep_start_time` is set only when still at its 0 sentinel. -/
lemma hst_into_up (rc : RepCounter) (arm : Arm) (prev : Stage)
    (m : Metrics) (t : ℚ) (pick : ℕ) (hprev : prev ≠ Stage.UP) :
    handleStateTransition rc arm prev Stage.UP m t pick =
      (if (rc.armGet arm).rep_start_time = 0 then
        rc.armSet arm { rc.armGet arm with rep_start_time := t }
       else rc,
       { m with stage := Stage.UP }) := by
  simp only [handleStateTransition]
  split_ifs <;> simp_all

/-- Helper: a commit into a moving stage from a stage other than `UP`
changes only the committed stage. -/
lemma hst_into_moving (rc : RepCounter) (arm : Arm) (prev new : Stage)
    (m : Metrics) (t : ℚ) (pick : ℕ) (hprev : prev ≠ Stage.UP)
    (hnew : new = Stage.MOVING_UP ∨ new = Stage.MOVING_DOWN) :
    handleStateTransition rc arm prev new m t pick =
      (rc, { m with stage := new }) := by
  rcases hnew with h | h <;> subst h <;>
    simp [handleStateTransition, hprev]

/-- Helper: every commit installs the new stage in the metrics record. -/
lemma hst_stage (rc : RepCounter) (arm : Arm) (prev new : Stage)
    (m : Metrics) (t : ℚ) (pick : ℕ) :
    (handleStateTransition rc arm prev new m t pick).2.stage = new := by
  simp only [handleStateTransition]
  split_ifs <;> rfl

/-! ## Unfolding lemmas for `process_rep` -/

/-- The buffer contents after the call pushes the new sample
(`self.angle_history[arm].append(angle)`). -/
def pushedBuf (rc : RepCounter) (arm : Arm) (angle : ℚ) : List ℚ :=
  dequePush 8 (rc.armGet arm).angle_history angle

/-- Helper: with fewer than 4 buffered samples the call only records the
raw angle and the pushed buffer — no classification, no transition
evaluation, no feedback, no history change. -/
lemma processRep_short (rc : RepCounter) (arm : Arm) (angle : ℚ) (m : Metrics)
    (t : ℚ) (h : History) (pick : ℕ)
    (h4 : (pushedBuf rc arm angle).length < 4) :
    processRep rc arm angle m t h pick =
      (rc.armSet arm
        { rc.armGet arm with angle_history := pushedBuf rc arm angle },
       { m with angle := angle }, h) := by
  simp only [pushedBuf] at h4 ⊢
  simp only [processRep]
  rw [if_pos h4]

/-- Helper: with at least 4 buffered samples the call runs the full
pipeline; this spells out `process_rep`'s else-branch with the buffer,
velocity and classifier target named. -/
lemma processRep_long (rc : RepCounter) (arm : Arm) (angle : ℚ) (m : Metrics)
    (t : ℚ) (h : History) (pick : ℕ)
    (h4 : ¬ (pushedBuf rc arm angle).length < 4) :
    processRep rc arm angle m t h pick =
      (let buf := pushedBuf rc arm angle
       let rc1 := rc.armSet arm { rc.armGet arm with angle_history := buf }
       let m1 : Metrics := { m with angle := angle }
       let velocity := bufVelocity buf
       let target := determineTargetState rc.hysteresis_margin angle
         rc.contracted_threshold rc.extended_threshold m.stage
       let confirmed :=
         if target ≠ m.stage then
           if (rc.armGet arm).pending_state = some target then
             if t - (rc.armGet arm).pending_state_start ≥ rc.state_hold_time
                 ∧ velocity < 15 then
               handleStateTransition rc1 arm m.stage target m1 t pick
             else (rc1, m1)
           else
             (rc1.armSet arm
               { rc1.armGet arm with pending_state := some target
                                     pending_state_start := t }, m1)
         else (rc1.armSet arm { rc1.armGet arm with pending_state := none }, m1)
       let rc2 := confirmed.1
       let m2 :=
         if confirmed.2.stage = Stage.UP then
           { confirmed.2 with curr_rep_time := t - (rc2.armGet arm).rep_start_time }
         else confirmed.2
       let fed := provideFormFeedback rc2 angle m2 rc.contracted_threshold
         rc.extended_threshold arm h velocity t
       (rc2, fed.1, fed.2)) := by
  simp only [pushedBuf] at h4 ⊢
  simp only [processRep]
  rw [if_neg h4]
  simp only [armGet_armSet_same, armSet_contracted, armSet_extended,
    armSet_state_hold_time, armSet_hysteresis_margin]

/-- Helper: unless the commit is `UP → MOVING_DOWN/DOWN` with a long
enough cycle, the rep counter and every timing statistic survive the
commit unchanged. -/
lemma hst_fields_unchanged (rc : RepCounter) (arm : Arm) (prev new : Stage)
    (m : Metrics) (t : ℚ) (pick : ℕ)
    (hno : ¬ (prev = Stage.UP ∧ (new = Stage.MOVING_DOWN ∨ new = Stage.DOWN) ∧
      t - m.last_down_time ≥ rc.min_rep_duration)) :
    (handleStateTransition rc arm prev new m t pick).2.rep_count = m.rep_count ∧
    (handleStateTransition rc arm prev new m t pick).2.min_rep_time =
      m.min_rep_time ∧
    (handleStateTransition rc arm prev new m t pick).2.rep_time = m.rep_time ∧
    (handleStateTransition rc arm prev new m t pick).2.last_down_time =
      m.last_down_time ∧
    (handleStateTransition rc arm prev new m t pick).2.curr_rep_time =
      m.curr_rep_time := by
  simp only [handleStateTransition]
  split_ifs <;> simp_all

/-- Helper: the field content of a counted rep (`UP → MOVING_DOWN/DOWN`,
cycle at least `min_rep_duration`). -/
lemma hst_counted_fields (rc : RepCounter) (arm : Arm) (prev new : Stage)
    (m : Metrics) (t : ℚ) (pick : ℕ)
    (hyes : prev = Stage.UP ∧ (new = Stage.MOVING_DOWN ∨ new = Stage.DOWN) ∧
      t - m.last_down_time ≥ rc.min_rep_duration) :
    (handleStateTransition rc arm prev new m t pick).2.rep_count =
      m.rep_count + 1 ∧
    (handleStateTransition rc arm prev new m t pick).2.rep_time =
      t - m.last_down_time ∧
    (handleStateTransition rc arm prev new m t pick).2.min_rep_time =
      (if m.min_rep_time = 0 then t - m.last_down_time
       else min (t - m.last_down_time) m.min_rep_time) ∧
    (handleStateTransition rc arm prev new m t pick).2.last_down_time = t ∧
    (handleStateTransition rc arm prev new m t pick).2.curr_rep_time = 0 := by
  obtain ⟨h1, h2, h3⟩ := hyes
  rw [hst_counted rc arm prev new m t pick h1 h2 h3]
  exact ⟨rfl, rfl, rfl, rfl, rfl⟩

/-- Helper: one `process_rep` call either leaves the rep counter and all
rep-timing statistics unchanged, or counts exactly one rep through the
`UP → MOVING_DOWN/DOWN` lifecycle case with every recorded update. -/
lemma processRep_count_cases (rc : RepCounter) (arm : Arm) (angle : ℚ)
    (m : Metrics) (t : ℚ) (h : History) (pick : ℕ) :
    ((processRep rc arm angle m t h pick).2.1.rep_count = m.rep_count ∧
     (processRep rc arm angle m t h pick).2.1.min_rep_time = m.min_rep_time ∧
     (processRep rc arm angle m t h pick).2.1.rep_time = m.rep_time ∧
     (processRep rc arm angle m t h pick).2.1.last_down_time =
       m.last_down_time) ∨
    (m.stage = Stage.UP ∧
     ((processRep rc arm angle m t h pick).2.1.stage = Stage.MOVING_DOWN ∨
      (processRep rc arm angle m t h pick).2.1.stage = Stage.DOWN) ∧
     (processRep rc arm angle m t h pick).2.1.rep_count = m.rep_count + 1 ∧
     (processRep rc arm angle m t h pick).2.1.rep_time = t - m.last_down_time ∧
     rc.min_rep_duration ≤ t - m.last_down_time ∧
     (processRep rc arm angle m t h pick).2.1.min_rep_time =
       (if m.min_rep_time = 0 then t - m.last_down_time
        else min (t - m.last_down_time) m.min_rep_time) ∧
     (processRep rc arm angle m t h pick).2.1.last_down_time = t ∧
     (processRep rc arm angle m t h pick).2.1.curr_rep_time = 0) := by
  by_cases h4 : (pushedBuf rc arm angle).length < 4
  · left
    rw [processRep_short rc arm angle m t h pick h4]
    exact ⟨rfl, rfl, rfl, rfl⟩
  · rw [processRep_long rc arm angle m t h pick h4]
    generalize hdet : determineTargetState rc.hysteresis_margin angle
        rc.contracted_threshold rc.extended_threshold m.stage = tg
    by_cases htgt : tg = m.stage
    · left
      simp [htgt]
      split_ifs <;> simp
    · by_cases hp : (rc.armGet arm).pending_state = some tg
      · by_cases hc : t - (rc.armGet arm).pending_state_start ≥
            rc.state_hold_time ∧ bufVelocity (pushedBuf rc arm angle) < 15
        · -- the Confirmer commits: the Lifecycle Tracker runs
          by_cases hfull : m.stage = Stage.UP ∧
              (tg = Stage.MOVING_DOWN ∨ tg = Stage.DOWN) ∧
              t - m.last_down_time ≥ rc.min_rep_duration
          · right
            refine ⟨hfull.1, ?_⟩
            obtain ⟨hu, hor, hd⟩ := hfull
            rcases hor with h1 | h1 <;> subst h1 <;>
              simp [htgt, hp, hc, handleStateTransition, hu, hd]
          · left
            simp [htgt, hp, hc, handleStateTransition]
            split_ifs <;> simp_all
        · left
          simp [htgt, hp, hc]
          split_ifs <;> simp
      · left
        simp [htgt, hp]
        split_ifs <;> simp
  
/-! ## Projections of the caller loop -/

lemma sysStep_metricsOf_same (s : SysState) (i : Input) :
    (sysStep s i).metricsOf i.arm =
      (processRep s.rc i.arm i.angle (s.metricsOf i.arm) i.time s.hist
        i.pick).2.1 := by
  cases harm : i.arm <;>
    simp [sysStep, SysState.metricsOf, harm]

lemma sysStep_metricsOf_other (s : SysState) (i : Input) (b : Arm)
    (hb : b ≠ i.arm) :
    (sysStep s i).metricsOf b = s.metricsOf b := by
  cases harm : i.arm <;> cases b <;>
    simp_all [sysStep, SysState.metricsOf]

lemma sysStep_rc (s : SysState) (i : Input) :
    (sysStep s i).rc =
      (processRep s.rc i.arm i.angle (s.metricsOf i.arm) i.time s.hist
        i.pick).1 := by
  cases harm : i.arm <;>
    simp [sysStep, SysState.metricsOf, harm]

lemma sysStep_hist (s : SysState) (i : Input) :
    (sysStep s i).hist =
      (processRep s.rc i.arm i.angle (s.metricsOf i.arm) i.time s.hist
        i.pick).2.2 := by
  cases harm : i.arm <;>
    simp [sysStep, SysState.metricsOf, harm]

/-- Helper: a commit never changes the counter's configuration scalars. -/
lemma hst_fst_consts (rc : RepCounter) (arm : Arm) (prev new : Stage)
    (m : Metrics) (t : ℚ) (pick : ℕ) :
    (handleStateTransition rc arm prev new m t pick).1.min_rep_duration =
      rc.min_rep_duration := by
  simp only [handleStateTransition]
  split_ifs <;> simp

/-- Helper: a `process_rep` call never changes the counter's configuration
scalars. -/
lemma processRep_min_rep_duration (rc : RepCounter) (arm : Arm) (angle : ℚ)
    (m : Metrics) (t : ℚ) (h : History) (pick : ℕ) :
    (processRep rc arm angle m t h pick).1.min_rep_duration =
      rc.min_rep_duration := by
  by_cases h4 : (pushedBuf rc arm angle).length < 4
  · rw [processRep_short rc arm angle m t h pick h4]
    simp
  · rw [processRep_long rc arm angle m t h pick h4]
    simp only []
    split_ifs <;> simp [hst_fst_consts]

lemma sysStep_min_rep_duration (s : SysState) (i : Input) :
    (sysStep s i).rc.min_rep_duration = s.rc.min_rep_duration := by
  rw [sysStep_rc, processRep_min_rep_duration]

/-- Helper: one caller iteration never decreases any limb's rep counter,
and raises it by at most one. -/
lemma sysStep_count_mono (s : SysState) (i : Input) (a : Arm) :
    (s.metricsOf a).rep_count ≤ ((sysStep s i).metricsOf a).rep_count := by
  by_cases hb : a = i.arm
  · subst hb
    rw [sysStep_metricsOf_same]
    rcases processRep_count_cases s.rc i.arm i.angle (s.metricsOf i.arm) i.time
      s.hist i.pick with hsame | hinc
    · rw [hsame.1]
    · rw [hinc.2.2.1]
      exact Nat.le_succ _
  · rw [sysStep_metricsOf_other s i a hb]

/-- Helper: over any run of the caller loop, every limb's rep counter is
non-decreasing. -/
lemma sysRun_count_mono (l : List Input) (s : SysState) (a : Arm) :
    (s.metricsOf a).rep_count ≤ ((sysRun s l).metricsOf a).rep_count := by
  induction l generalizing s with
  | nil => exact le_refl _
  | cons i rest ih =>
      exact le_trans (sysStep_count_mono s i a) (ih (sysStep s i))

/-! ## C1: the rep lifecycle -/

/-- C1.  On a committed `UP → MOVING_DOWN/DOWN` transition with
`rep_time = now - last_down_time ≥ min_rep_duration` the Lifecycle
Tracker counts exactly one rep, records `rep_time`, sets
`last_down_time = now` and `curr_rep_time = 0`; with
`rep_time < min_rep_duration` it leaves the counter instance and every
metrics field except the stage untouched.  Moreover a single
`process_rep` call moves `rep_count` by 0 or 1, any increase happens
exactly through this counted case with all its updates, and over any
input sequence `rep_count` is non-decreasing. -/
theorem rep_lifecycle (rc : RepCounter) (arm : Arm) (prev new : Stage)
    (m : Metrics) (t : ℚ) (pick : ℕ) :
    (prev = Stage.UP → (new = Stage.MOVING_DOWN ∨ new = Stage.DOWN) →
      t - m.last_down_time ≥ rc.min_rep_duration →
      ((handleStateTransition rc arm prev new m t pick).2.rep_count =
         m.rep_count + 1 ∧
       (handleStateTransition rc arm prev new m t pick).2.rep_time =
         t - m.last_down_time ∧
       (handleStateTransition rc arm prev new m t pick).2.last_down_time = t ∧
       (handleStateTransition rc arm prev new m t pick).2.curr_rep_time = 0)) ∧
    (prev = Stage.UP → (new = Stage.MOVING_DOWN ∨ new = Stage.DOWN) →
      t - m.last_down_time < rc.min_rep_duration →
      handleStateTransition rc arm prev new m t pick =
        (rc, { m with stage := new })) ∧
    (∀ (angle : ℚ) (h : History),
      (m.rep_count ≤ (processRep rc arm angle m t h pick).2.1.rep_count ∧
       (processRep rc arm angle m t h pick).2.1.rep_count ≤ m.rep_count + 1) ∧
      ((processRep rc arm angle m t h pick).2.1.rep_count ≠ m.rep_count →
        (m.stage = Stage.UP ∧
         ((processRep rc arm angle m t h pick).2.1.stage = Stage.MOVING_DOWN ∨
          (processRep rc arm angle m t h pick).2.1.stage = Stage.DOWN) ∧
         (processRep rc arm angle m t h pick).2.1.rep_count = m.rep_count + 1 ∧
         (processRep rc arm angle m t h pick).2.1.rep_time =
           t - m.last_down_time ∧
         rc.min_rep_duration ≤ t - m.last_down_time ∧
         (processRep rc arm angle m t h pick).2.1.last_down_time = t ∧
         (processRep rc arm angle m t h pick).2.1.curr_rep_time = 0))) ∧
    (∀ (s : SysState) (l : List Input) (a : Arm),
      (s.metricsOf a).rep_count ≤ ((sysRun s l).metricsOf a).rep_count) := by
  refine ⟨?_, ?_, ?_, ?_⟩
  · intro h1 h2 h3
    have := hst_counted_fields rc arm prev new m t pick ⟨h1, h2, h3⟩
    exact ⟨this.1, this.2.1, this.2.2.2.1, this.2.2.2.2⟩
  · intro h1 h2 h3
    exact hst_fast rc arm prev new m t pick h1 h2 (not_le.mpr h3)
  · intro angle h
    rcases processRep_count_cases rc arm angle m t h pick with hsame | hinc
    · refine ⟨⟨le_of_eq hsame.1.symm, ?_⟩, ?_⟩
      · rw [hsame.1]; exact Nat.le_succ _
      · intro hne; exact absurd hsame.1 hne
    · refine ⟨⟨?_, le_of_eq hinc.2.2.1⟩, ?_⟩
      · rw [hinc.2.2.1]; exact Nat.le_succ _
      · intro _
        exact ⟨hinc.1, hinc.2.1, hinc.2.2.1, hinc.2.2.2.1, hinc.2.2.2.2.1,
          hinc.2.2.2.2.2.2.1, hinc.2.2.2.2.2.2.2⟩
  · intro s l a
    exact sysRun_count_mono l s a

/-- A metrics record as the caller supplies it at session start (spec:
counters and timestamps 0, `min_rep_time` 0 meaning "none yet", stage
implementation-defined). -/
def metricsInit (st : Stage) : Metrics :=
  { angle := 0, stage := st, rep_count := 0, rep_time := 0, min_rep_time := 0,
    curr_rep_time := 0, last_down_time := 0, feedback := "Maintain Form" }

/-- Concrete instance of `rep_lifecycle`: committing `UP → DOWN` at time 1
with `last_down_time = 0` under the default 0.6 s minimum counts one rep. -/
theorem rep_lifecycle_witness :
    (Stage.UP = Stage.UP) ∧
    (Stage.DOWN = Stage.MOVING_DOWN ∨ Stage.DOWN = Stage.DOWN) ∧
    ((1 : ℚ) - (metricsInit Stage.DOWN).last_down_time ≥
      (RepCounter.init 40 160).min_rep_duration) ∧
    (handleStateTransition (RepCounter.init 40 160) Arm.RIGHT Stage.UP
      Stage.DOWN (metricsInit Stage.DOWN) 1 0).2.rep_count =
      (metricsInit Stage.DOWN).rep_count + 1 := by
  refine ⟨rfl, Or.inr rfl, by norm_num [metricsInit, RepCounter.init], ?_⟩
  exact ((rep_lifecycle (RepCounter.init 40 160) Arm.RIGHT Stage.UP Stage.DOWN
    (metricsInit Stage.DOWN) 1 0).1 rfl (Or.inr rfl)
    (by norm_num [metricsInit, RepCounter.init])).1

/-! ## Ghost collection of counted reps, for the `min_rep_time` invariant -/

/-- Minimum of a list of rep durations, with 0 (the source's "unset"
sentinel) for the empty list. -/
def qListMin : List ℚ → ℚ
  | [] => 0
  | x :: xs => xs.foldl min x

/-- One caller iteration paired with the ghost log of counted reps: when
the sample's limb counts a rep, the recorded `rep_time` is appended. -/
def stepG (p : SysState × List (Arm × ℚ)) (i : Input) :
    SysState × List (Arm × ℚ) :=
  let s' := sysStep p.1 i
  (s', if (s'.metricsOf i.arm).rep_count = (p.1.metricsOf i.arm).rep_count
       then p.2
       else p.2 ++ [(i.arm, (s'.metricsOf i.arm).rep_time)])

/-- Run the caller loop collecting the ghost rep log. -/
def runG (s : SysState) (l : List Input) : SysState × List (Arm × ℚ) :=
  l.foldl stepG (s, [])

/-- The rep durations logged for one limb. -/
def armReps (reps : List (Arm × ℚ)) (a : Arm) : List ℚ :=
  (reps.filter (fun p => p.1 == a)).map Prod.snd

lemma qListMin_append_singleton (xs : List ℚ) (x : ℚ) (hne : xs ≠ []) :
    qListMin (xs ++ [x]) = min (qListMin xs) x := by
  cases xs with
  | nil => contradiction
  | cons y ys => simp [qListMin, List.foldl_append]

lemma le_qListMin (c : ℚ) (xs : List ℚ) (hne : xs ≠ [])
    (h : ∀ r ∈ xs, c ≤ r) : c ≤ qListMin xs := by
  cases xs with
  | nil => contradiction
  | cons y ys =>
      simp only [qListMin]
      have hy : c ≤ y := h y (by simp)
      have hys : ∀ r ∈ ys, c ≤ r := fun r hr => h r (by simp [hr])
      clear h hne
      induction ys generalizing y with
      | nil => exact hy
      | cons z zs ih =>
          simp only [List.foldl_cons]
          exact ih (min y z) (le_min hy (hys z (by simp)))
            (fun r hr => hys r (by simp [hr]))

lemma armReps_append (reps : List (Arm × ℚ)) (a b : Arm) (r : ℚ) :
    armReps (reps ++ [(a, r)]) b =
      if a = b then armReps reps b ++ [r] else armReps reps b := by
  cases a <;> cases b <;>
    simp [armReps, List.filter_append]

lemma runG_fst (s : SysState) (l : List Input) :
    (runG s l).1 = sysRun s l := by
  suffices h : ∀ (l : List Input) (s : SysState) (acc : List (Arm × ℚ)),
      (l.foldl stepG (s, acc)).1 = sysRun s l by
    exact h l s []
  intro l
  induction l with
  | nil => intro s acc; rfl
  | cons i rest ih =>
      intro s acc
      simp only [List.foldl_cons, sysRun, stepG]
      exact ih (sysStep s i) _

/-- Helper: the `min_rep_time` bookkeeping invariant, carried through the
caller loop with the ghost rep log. -/
lemma runG_invariant : ∀ (l : List Input) (s : SysState)
    (acc : List (Arm × ℚ)),
    0 < s.rc.min_rep_duration →
    (∀ b, (s.metricsOf b).min_rep_time = qListMin (armReps acc b)) →
    (∀ b r, r ∈ armReps acc b → s.rc.min_rep_duration ≤ r) →
    ∀ b, ((l.foldl stepG (s, acc)).1.metricsOf b).min_rep_time =
      qListMin (armReps (l.foldl stepG (s, acc)).2 b) := by
  intro l
  induction l with
  | nil => intro s acc _ hmin _ b; exact hmin b
  | cons i rest ih =>
      intro s acc hdur hmin hpos b
      simp only [List.foldl_cons]
      have hstep : stepG (s, acc) i =
          (sysStep s i,
           if ((sysStep s i).metricsOf i.arm).rep_count =
               (s.metricsOf i.arm).rep_count
           then acc
           else acc ++ [(i.arm, ((sysStep s i).metricsOf i.arm).rep_time)]) :=
        rfl
      rw [hstep]
      have hdur' : 0 < (sysStep s i).rc.min_rep_duration := by
        rw [sysStep_min_rep_duration]; exact hdur
      by_cases hcnt : ((sysStep s i).metricsOf i.arm).rep_count =
          (s.metricsOf i.arm).rep_count
      · rw [if_pos hcnt]
        refine ih (sysStep s i) acc hdur' ?_ ?_ b
        · intro c
          by_cases hc : c = i.arm
          · subst hc
            have hcases := processRep_count_cases s.rc i.arm i.angle
              (s.metricsOf i.arm) i.time s.hist i.pick
            rw [← sysStep_metricsOf_same] at hcases
            rcases hcases with hsame | hinc
            · rw [hsame.2.1]; exact hmin i.arm
            · exfalso; rw [hinc.2.2.1] at hcnt; omega
          · rw [sysStep_metricsOf_other s i c hc]; exact hmin c
        · intro c r hr
          rw [sysStep_min_rep_duration]
          exact hpos c r hr
      · rw [if_neg hcnt]
        have hcases := processRep_count_cases s.rc i.arm i.angle
          (s.metricsOf i.arm) i.time s.hist i.pick
        rw [← sysStep_metricsOf_same] at hcases
        rcases hcases with hsame | hinc
        · exact absurd hsame.1 hcnt
        refine ih (sysStep s i) _ hdur' ?_ ?_ b
        · intro c
          by_cases hc : i.arm = c
          · subst hc
            rw [armReps_append, if_pos rfl]
            rcases eq_or_ne (armReps acc i.arm) [] with hempty | hnonempty
            · have hmin0 : (s.metricsOf i.arm).min_rep_time = 0 := by
                rw [hmin i.arm, hempty]; rfl
              rw [hinc.2.2.2.2.2.1, hmin0, if_pos rfl, hempty,
                hinc.2.2.2.1]
              simp [qListMin]
            · have hminpos : 0 < qListMin (armReps acc i.arm) :=
                lt_of_lt_of_le hdur (le_qListMin _ _ hnonempty
                  (fun r hr => hpos i.arm r hr))
              have hminne : (s.metricsOf i.arm).min_rep_time ≠ 0 := by
                rw [hmin i.arm]; exact ne_of_gt hminpos
              rw [hinc.2.2.2.2.2.1, if_neg hminne,
                qListMin_append_singleton _ _ hnonempty, hmin i.arm,
                hinc.2.2.2.1, min_comm]
          · rw [sysStep_metricsOf_other s i c (fun hh => hc hh.symm),
              armReps_append, if_neg hc]
            exact hmin c
        · intro c r hr
          rw [sysStep_min_rep_duration]
          by_cases hc : i.arm = c
          · subst hc
            rw [armReps_append, if_pos rfl] at hr
            rcases List.mem_append.mp hr with hold | hnew
            · exact hpos i.arm r hold
            · have hrq : r = ((sysStep s i).metricsOf i.arm).rep_time := by
                simpa [armReps] using hnew
              rw [hrq, hinc.2.2.2.1]
              exact hinc.2.2.2.2.1
          · rw [armReps_append, if_neg hc] at hr
            exact hpos c r hr

/-! ## C6: the `min_rep_time` invariant -/

/-- C6.  Starting from metrics whose `min_rep_time` is at the 0 sentinel
(no rep counted yet) and with a positive `min_rep_duration` (default
0.6 s), after any input sequence each limb's `min_rep_time` equals the
minimum recorded `rep_time` over all reps counted for that limb so far
(and is still 0 while no rep has been counted): the first counted rep
installs its own `rep_time`, every later one takes the running minimum. -/
theorem min_rep_time_tracks (s : SysState) (l : List Input) (a : Arm)
    (hdur : 0 < s.rc.min_rep_duration)
    (hinit : ∀ b, (s.metricsOf b).min_rep_time = 0) :
    ((runG s l).1.metricsOf a).min_rep_time =
      qListMin (armReps (runG s l).2 a) := by
  refine runG_invariant l s [] hdur ?_ ?_ a
  · intro c; rw [hinit c]; rfl
  · intro c r hr; simp [armReps] at hr

/-! ## Concrete runs, evaluated step by step -/

/-- A full system state at session start with calibration 40/160 and the
default configuration. -/
def sysInit (st : Stage) : SysState :=
  { rc := RepCounter.init 40 160, right_metrics := metricsInit st,
    left_metrics := metricsInit st,
    hist := { right_feedback_count := 0, left_feedback_count := 0 } }

/-- A right-arm sample. -/
def sampleR (a t : ℚ) (p : ℕ) : Input :=
  { arm := Arm.RIGHT, angle := a, time := t, pick := p }

/-- Run A: from committed `UP`, hold the angle at 165° so the classifier
requests `DOWN` directly; the Confirmer commits `UP → DOWN` at time 7/20. -/
def runAfirst4 : List Input :=
  [sampleR 165 0 0, sampleR 165 (1/20) 0, sampleR 165 (1/10) 0,
   sampleR 165 (3/20) 0]

def runAinputs : List Input := runAfirst4 ++ [sampleR 165 (7/20) 0]

/-- Run B: from committed `DOWN`, one full `DOWN → UP → DOWN`-side cycle;
the 13th sample (appended by `runBfull`) commits `UP → MOVING_DOWN` at
time 7/5 and counts the rep. -/
def runBinputs : List Input :=
  [sampleR 165 0 0, sampleR 165 (1/20) 0, sampleR 165 (1/10) 0,
   sampleR 165 (3/20) 0, sampleR 150 (1/5) 0, sampleR 130 (2/5) 0,
   sampleR 100 (3/5) 0, sampleR 60 (7/10) 0, sampleR 35 (4/5) 0,
   sampleR 33 1 0, sampleR 33 (11/10) 0, sampleR 50 (6/5) 0]

def runBfull (p : ℕ) : List Input := runBinputs ++ [sampleR 70 (7/5) p]

/-- Run C: four over-extended samples (179°) then one over-curled sample
(1°): two different safety conditions fire on the same limb. -/
def runCfirst4 : List Input :=
  [sampleR 179 0 0, sampleR 179 (1/20) 0, sampleR 179 (1/10) 0,
   sampleR 179 (3/20) 0]

def runCinputs : List Input := runCfirst4 ++ [sampleR 1 (1/5) 0]

/-- Intermediate state of a concrete run (computed from the embedding). -/
def stateA1 : SysState :=
  { rc := { contracted_threshold := 40, extended_threshold := 160, min_rep_duration := 3/5, state_hold_time := 3/20, hysteresis_margin := 5, right := { angle_history := [165], pending_state := none, pending_state_start := 0, rep_start_time := 0, last_rep_time := 0, current_compliment := "Maintain Form" }, left := { angle_history := [], pending_state := none, pending_state_start := 0, rep_start_time := 0, last_rep_time := 0, current_compliment := "Maintain Form" } }, right_metrics := { angle := 165, stage := Stage.UP, rep_count := 0, rep_time := 0, min_rep_time := 0, curr_rep_time := 0, last_down_time := 0, feedback := "Maintain Form" }, left_metrics := { angle := 0, stage := Stage.UP, rep_count := 0, rep_time := 0, min_rep_time := 0, curr_rep_time := 0, last_down_time := 0, feedback := "Maintain Form" }, hist := { right_feedback_count := 0, left_feedback_count := 0 } }

/-- Intermediate state of a concrete run (computed from the embedding). -/
def stateA2 : SysState :=
  { rc := { contracted_threshold := 40, extended_threshold := 160, min_rep_duration := 3/5, state_hold_time := 3/20, hysteresis_margin := 5, right := { angle_history := [165, 165], pending_state := none, pending_state_start := 0, rep_start_time := 0, last_rep_time := 0, current_compliment := "Maintain Form" }, left := { angle_history := [], pending_state := none, pending_state_start := 0, rep_start_time := 0, last_rep_time := 0, current_compliment := "Maintain Form" } }, right_metrics := { angle := 165, stage := Stage.UP, rep_count := 0, rep_time := 0, min_rep_time := 0, curr_rep_time := 0, last_down_time := 0, feedback := "Maintain Form" }, left_metrics := { angle := 0, stage := Stage.UP, rep_count := 0, rep_time := 0, min_rep_time := 0, curr_rep_time := 0, last_down_time := 0, feedback := "Maintain Form" }, hist := { right_feedback_count := 0, left_feedback_count := 0 } }

/-- Intermediate state of a concrete run (computed from the embedding). -/
def stateA3 : SysState :=
  { rc := { contracted_threshold := 40, extended_threshold := 160, min_rep_duration := 3/5, state_hold_time := 3/20, hysteresis_margin := 5, right := { angle_history := [165, 165, 165], pending_state := none, pending_state_start := 0, rep_start_time := 0, last_rep_time := 0, current_compliment := "Maintain Form" }, left := { angle_history := [], pending_state := none, pending_state_start := 0, rep_start_time := 0, last_rep_time := 0, current_compliment := "Maintain Form" } }, right_metrics := { angle := 165, stage := Stage.UP, rep_count := 0, rep_time := 0, min_rep_time := 0, curr_rep_time := 0, last_down_time := 0, feedback := "Maintain Form" }, left_metrics := { angle := 0, stage := Stage.UP, rep_count := 0, rep_time := 0, min_rep_time := 0, curr_rep_time := 0, last_down_time := 0, feedback := "Maintain Form" }, hist := { right_feedback_count := 0, left_feedback_count := 0 } }

/-- Intermediate state of a concrete run (computed from the embedding). -/
def stateA4 : SysState :=
  { rc := { contracted_threshold := 40, extended_threshold := 160, min_rep_duration := 3/5, state_hold_time := 3/20, hysteresis_margin := 5, right := { angle_history := [165, 165, 165, 165], pending_state := some (Stage.DOWN), pending_state_start := 3/20, rep_start_time := 0, last_rep_time := 0, current_compliment := "Maintain Form" }, left := { angle_history := [], pending_state := none, pending_state_start := 0, rep_start_time := 0, last_rep_time := 0, current_compliment := "Maintain Form" } }, right_metrics := { angle := 165, stage := Stage.UP, rep_count := 0, rep_time := 0, min_rep_time := 0, curr_rep_time := 3/20, last_down_time := 0, feedback := "Curl Higher" }, left_metrics := { angle := 0, stage := Stage.UP, rep_count := 0, rep_time := 0, min_rep_time := 0, curr_rep_time := 0, last_down_time := 0, feedback := "Maintain Form" }, hist := { right_feedback_count := 1, left_feedback_count := 0 } }

/-- Intermediate state of a concrete run (computed from the embedding). -/
def stateA5 : SysState :=
  { rc := { contracted_threshold := 40, extended_threshold := 160, min_rep_duration := 3/5, state_hold_time := 3/20, hysteresis_margin := 5, right := { angle_history := [165, 165, 165, 165, 165], pending_state := some (Stage.DOWN), pending_state_start := 3/20, rep_start_time := 0, last_rep_time := 0, current_compliment := "Maintain Form" }, left := { angle_history := [], pending_state := none, pending_state_start := 0, rep_start_time := 0, last_rep_time := 0, current_compliment := "Maintain Form" } }, right_metrics := { angle := 165, stage := Stage.DOWN, rep_count := 0, rep_time := 0, min_rep_time := 0, curr_rep_time := 3/20, last_down_time := 0, feedback := "Maintain Form" }, left_metrics := { angle := 0, stage := Stage.UP, rep_count := 0, rep_time := 0, min_rep_time := 0, curr_rep_time := 0, last_down_time := 0, feedback := "Maintain Form" }, hist := { right_feedback_count := 1, left_feedback_count := 0 } }

/-- Intermediate state of a concrete run (computed from the embedding). -/
def stateB1 : SysState :=
  { rc := { contracted_threshold := 40, extended_threshold := 160, min_rep_duration := 3/5, state_hold_time := 3/20, hysteresis_margin := 5, right := { angle_history := [165], pending_state := none, pending_state_start := 0, rep_start_time := 0, last_rep_time := 0, current_compliment := "Maintain Form" }, left := { angle_history := [], pending_state := none, pending_state_start := 0, rep_start_time := 0, last_rep_time := 0, current_compliment := "Maintain Form" } }, right_metrics := { angle := 165, stage := Stage.DOWN, rep_count := 0, rep_time := 0, min_rep_time := 0, curr_rep_time := 0, last_down_time := 0, feedback := "Maintain Form" }, left_metrics := { angle := 0, stage := Stage.DOWN, rep_count := 0, rep_time := 0, min_rep_time := 0, curr_rep_time := 0, last_down_time := 0, feedback := "Maintain Form" }, hist := { right_feedback_count := 0, left_feedback_count := 0 } }

/-- Intermediate state of a concrete run (computed from the embedding). -/
def stateB2 : SysState :=
  { rc := { contracted_threshold := 40, extended_threshold := 160, min_rep_duration := 3/5, state_hold_time := 3/20, hysteresis_margin := 5, right := { angle_history := [165, 165], pending_state := none, pending_state_start := 0, rep_start_time := 0, last_rep_time := 0, current_compliment := "Maintain Form" }, left := { angle_history := [], pending_state := none, pending_state_start := 0, rep_start_time := 0, last_rep_time := 0, current_compliment := "Maintain Form" } }, right_metrics := { angle := 165, stage := Stage.DOWN, rep_count := 0, rep_time := 0, min_rep_time := 0, curr_rep_time := 0, last_down_time := 0, feedback := "Maintain Form" }, left_metrics := { angle := 0, stage := Stage.DOWN, rep_count := 0, rep_time := 0, min_rep_time := 0, curr_rep_time := 0, last_down_time := 0, feedback := "Maintain Form" }, hist := { right_feedback_count := 0, left_feedback_count := 0 } }

/-- Intermediate state of a concrete run (computed from the embedding). -/
def stateB3 : SysState :=
  { rc := { contracted_threshold := 40, extended_threshold := 160, min_rep_duration := 3/5, state_hold_time := 3/20, hysteresis_margin := 5, right := { angle_history := [165, 165, 165], pending_state := none, pending_state_start := 0, rep_start_time := 0, last_rep_time := 0, current_compliment := "Maintain Form" }, left := { angle_history := [], pending_state := none, pending_state_start := 0, rep_start_time := 0, last_rep_time := 0, current_compliment := "Maintain Form" } }, right_metrics := { angle := 165, stage := Stage.DOWN, rep_count := 0, rep_time := 0, min_rep_time := 0, curr_rep_time := 0, last_down_time := 0, feedback := "Maintain Form" }, left_metrics := { angle := 0, stage := Stage.DOWN, rep_count := 0, rep_time := 0, min_rep_time := 0, curr_rep_time := 0, last_down_time := 0, feedback := "Maintain Form" }, hist := { right_feedback_count := 0, left_feedback_count := 0 } }

/-- Intermediate state of a concrete run (computed from the embedding). -/
def stateB4 : SysState :=
  { rc := { contracted_threshold := 40, extended_threshold := 160, min_rep_duration := 3/5, state_hold_time := 3/20, hysteresis_margin := 5, right := { angle_history := [165, 165, 165, 165], pending_state := none, pending_state_start := 0, rep_start_time := 0, last_rep_time := 0, current_compliment := "Maintain Form" }, left := { angle_history := [], pending_state := none, pending_state_start := 0, rep_start_time := 0, last_rep_time := 0, current_compliment := "Maintain Form" } }, right_metrics := { angle := 165, stage := Stage.DOWN, rep_count := 0, rep_time := 0, min_rep_time := 0, curr_rep_time := 0, last_down_time := 0, feedback := "Maintain Form" }, left_metrics := { angle := 0, stage := Stage.DOWN, rep_count := 0, rep_time := 0, min_rep_time := 0, curr_rep_time := 0, last_down_time := 0, feedback := "Maintain Form" }, hist := { right_feedback_count := 0, left_feedback_count := 0 } }

/-- Intermediate state of a concrete run (computed from the embedding). -/
def stateB5 : SysState :=
  { rc := { contracted_threshold := 40, extended_threshold := 160, min_rep_duration := 3/5, state_hold_time := 3/20, hysteresis_margin := 5, right := { angle_history := [165, 165, 165, 165, 150], pending_state := some (Stage.MOVING_UP), pending_state_start := 1/5, rep_start_time := 0, last_rep_time := 0, current_compliment := "Maintain Form" }, left := { angle_history := [], pending_state := none, pending_state_start := 0, rep_start_time := 0, last_rep_time := 0, current_compliment := "Maintain Form" } }, right_metrics := { angle := 150, stage := Stage.DOWN, rep_count := 0, rep_time := 0, min_rep_time := 0, curr_rep_time := 0, last_down_time := 0, feedback := "Maintain Form" }, left_metrics := { angle := 0, stage := Stage.DOWN, rep_count := 0, rep_time := 0, min_rep_time := 0, curr_rep_time := 0, last_down_time := 0, feedback := "Maintain Form" }, hist := { right_feedback_count := 0, left_feedback_count := 0 } }

/-- Intermediate state of a concrete run (computed from the embedding). -/
def stateB6 : SysState :=
  { rc := { contracted_threshold := 40, extended_threshold := 160, min_rep_duration := 3/5, state_hold_time := 3/20, hysteresis_margin := 5, right := { angle_history := [165, 165, 165, 165, 150, 130], pending_state := some (Stage.MOVING_UP), pending_state_start := 1/5, rep_start_time := 0, last_rep_time := 0, current_compliment := "Maintain Form" }, left := { angle_history := [], pending_state := none, pending_state_start := 0, rep_start_time := 0, last_rep_time := 0, current_compliment := "Maintain Form" } }, right_metrics := { angle := 130, stage := Stage.MOVING_UP, rep_count := 0, rep_time := 0, min_rep_time := 0, curr_rep_time := 0, last_down_time := 0, feedback := "Maintain Form" }, left_metrics := { angle := 0, stage := Stage.DOWN, rep_count := 0, rep_time := 0, min_rep_time := 0, curr_rep_time := 0, last_down_time := 0, feedback := "Maintain Form" }, hist := { right_feedback_count := 0, left_feedback_count := 0 } }

/-- Intermediate state of a concrete run (computed from the embedding). -/
def stateB7 : SysState :=
  { rc := { contracted_threshold := 40, extended_threshold := 160, min_rep_duration := 3/5, state_hold_time := 3/20, hysteresis_margin := 5, right := { angle_history := [165, 165, 165, 165, 150, 130, 100], pending_state := none, pending_state_start := 1/5, rep_start_time := 0, last_rep_time := 0, current_compliment := "Maintain Form" }, left := { angle_history := [], pending_state := none, pending_state_start := 0, rep_start_time := 0, last_rep_time := 0, current_compliment := "Maintain Form" } }, right_metrics := { angle := 100, stage := Stage.MOVING_UP, rep_count := 0, rep_time := 0, min_rep_time := 0, curr_rep_time := 0, last_down_time := 0, feedback := "Maintain Form" }, left_metrics := { angle := 0, stage := Stage.DOWN, rep_count := 0, rep_time := 0, min_rep_time := 0, curr_rep_time := 0, last_down_time := 0, feedback := "Maintain Form" }, hist := { right_feedback_count := 0, left_feedback_count := 0 } }

/-- Intermediate state of a concrete run (computed from the embedding). -/
def stateB8 : SysState :=
  { rc := { contracted_threshold := 40, extended_threshold := 160, min_rep_duration := 3/5, state_hold_time := 3/20, hysteresis_margin := 5, right := { angle_history := [165, 165, 165, 165, 150, 130, 100, 60], pending_state := none, pending_state_start := 1/5, rep_start_time := 0, last_rep_time := 0, current_compliment := "Maintain Form" }, left := { angle_history := [], pending_state := none, pending_state_start := 0, rep_start_time := 0, last_rep_time := 0, current_compliment := "Maintain Form" } }, right_metrics := { angle := 60, stage := Stage.MOVING_UP, rep_count := 0, rep_time := 0, min_rep_time := 0, curr_rep_time := 0, last_down_time := 0, feedback := "Maintain Form" }, left_metrics := { angle := 0, stage := Stage.DOWN, rep_count := 0, rep_time := 0, min_rep_time := 0, curr_rep_time := 0, last_down_time := 0, feedback := "Maintain Form" }, hist := { right_feedback_count := 0, left_feedback_count := 0 } }

/-- Intermediate state of a concrete run (computed from the embedding). -/
def stateB9 : SysState :=
  { rc := { contracted_threshold := 40, extended_threshold := 160, min_rep_duration := 3/5, state_hold_time := 3/20, hysteresis_margin := 5, right := { angle_history := [165, 165, 165, 150, 130, 100, 60, 35], pending_state := some (Stage.UP), pending_state_start := 4/5, rep_start_time := 0, last_rep_time := 0, current_compliment := "Maintain Form" }, left := { angle_history := [], pending_state := none, pending_state_start := 0, rep_start_time := 0, last_rep_time := 0, current_compliment := "Maintain Form" } }, right_metrics := { angle := 35, stage := Stage.MOVING_UP, rep_count := 0, rep_time := 0, min_rep_time := 0, curr_rep_time := 0, last_down_time := 0, feedback := "Maintain Form" }, left_metrics := { angle := 0, stage := Stage.DOWN, rep_count := 0, rep_time := 0, min_rep_time := 0, curr_rep_time := 0, last_down_time := 0, feedback := "Maintain Form" }, hist := { right_feedback_count := 0, left_feedback_count := 0 } }

/-- Intermediate state of a concrete run (computed from the embedding). -/
def stateB10 : SysState :=
  { rc := { contracted_threshold := 40, extended_threshold := 160, min_rep_duration := 3/5, state_hold_time := 3/20, hysteresis_margin := 5, right := { angle_history := [165, 165, 150, 130, 100, 60, 35, 33], pending_state := some (Stage.UP), pending_state_start := 4/5, rep_start_time := 0, last_rep_time := 0, current_compliment := "Maintain Form" }, left := { angle_history := [], pending_state := none, pending_state_start := 0, rep_start_time := 0, last_rep_time := 0, current_compliment := "Maintain Form" } }, right_metrics := { angle := 33, stage := Stage.MOVING_UP, rep_count := 0, rep_time := 0, min_rep_time := 0, curr_rep_time := 0, last_down_time := 0, feedback := "Maintain Form" }, left_metrics := { angle := 0, stage := Stage.DOWN, rep_count := 0, rep_time := 0, min_rep_time := 0, curr_rep_time := 0, last_down_time := 0, feedback := "Maintain Form" }, hist := { right_feedback_count := 0, left_feedback_count := 0 } }

/-- Intermediate state of a concrete run (computed from the embedding). -/
def stateB11 : SysState :=
  { rc := { contracted_threshold := 40, extended_threshold := 160, min_rep_duration := 3/5, state_hold_time := 3/20, hysteresis_margin := 5, right := { angle_history := [165, 150, 130, 100, 60, 35, 33, 33], pending_state := some (Stage.UP), pending_state_start := 4/5, rep_start_time := 11/10, last_rep_time := 0, current_compliment := "Maintain Form" }, left := { angle_history := [], pending_state := none, pending_state_start := 0, rep_start_time := 0, last_rep_time := 0, current_compliment := "Maintain Form" } }, right_metrics := { angle := 33, stage := Stage.UP, rep_count := 0, rep_time := 0, min_rep_time := 0, curr_rep_time := 0, last_down_time := 0, feedback := "Maintain Form" }, left_metrics := { angle := 0, stage := Stage.DOWN, rep_count := 0, rep_time := 0, min_rep_time := 0, curr_rep_time := 0, last_down_time := 0, feedback := "Maintain Form" }, hist := { right_feedback_count := 0, left_feedback_count := 0 } }

/-- Intermediate state of a concrete run (computed from the embedding). -/
def stateB12 : SysState :=
  { rc := { contracted_threshold := 40, extended_threshold := 160, min_rep_duration := 3/5, state_hold_time := 3/20, hysteresis_margin := 5, right := { angle_history := [150, 130, 100, 60, 35, 33, 33, 50], pending_state := some (Stage.MOVING_DOWN), pending_state_start := 6/5, rep_start_time := 11/10, last_rep_time := 0, current_compliment := "Maintain Form" }, left := { angle_history := [], pending_state := none, pending_state_start := 0, rep_start_time := 0, last_rep_time := 0, current_compliment := "Maintain Form" } }, right_metrics := { angle := 50, stage := Stage.UP, rep_count := 0, rep_time := 0, min_rep_time := 0, curr_rep_time := 1/10, last_down_time := 0, feedback := "Maintain Form" }, left_metrics := { angle := 0, stage := Stage.DOWN, rep_count := 0, rep_time := 0, min_rep_time := 0, curr_rep_time := 0, last_down_time := 0, feedback := "Maintain Form" }, hist := { right_feedback_count := 0, left_feedback_count := 0 } }

/-- Intermediate state of a concrete run (computed from the embedding). -/
def stateB13p0 : SysState :=
  { rc := { contracted_threshold := 40, extended_threshold := 160, min_rep_duration := 3/5, state_hold_time := 3/20, hysteresis_margin := 5, right := { angle_history := [130, 100, 60, 35, 33, 33, 50, 70], pending_state := some (Stage.MOVING_DOWN), pending_state_start := 6/5, rep_start_time := 11/10, last_rep_time := 7/5, current_compliment := "Looking Strong!" }, left := { angle_history := [], pending_state := none, pending_state_start := 0, rep_start_time := 0, last_rep_time := 0, current_compliment := "Maintain Form" } }, right_metrics := { angle := 70, stage := Stage.MOVING_DOWN, rep_count := 1, rep_time := 7/5, min_rep_time := 7/5, curr_rep_time := 0, last_down_time := 7/5, feedback := "Looking Strong!" }, left_metrics := { angle := 0, stage := Stage.DOWN, rep_count := 0, rep_time := 0, min_rep_time := 0, curr_rep_time := 0, last_down_time := 0, feedback := "Maintain Form" }, hist := { right_feedback_count := 0, left_feedback_count := 0 } }

/-- Intermediate state of a concrete run (computed from the embedding). -/
def stateB13p1 : SysState :=
  { rc := { contracted_threshold := 40, extended_threshold := 160, min_rep_duration := 3/5, state_hold_time := 3/20, hysteresis_margin := 5, right := { angle_history := [130, 100, 60, 35, 33, 33, 50, 70], pending_state := some (Stage.MOVING_DOWN), pending_state_start := 6/5, rep_start_time := 11/10, last_rep_time := 7/5, current_compliment := "Great Control!" }, left := { angle_history := [], pending_state := none, pending_state_start := 0, rep_start_time := 0, last_rep_time := 0, current_compliment := "Maintain Form" } }, right_metrics := { angle := 70, stage := Stage.MOVING_DOWN, rep_count := 1, rep_time := 7/5, min_rep_time := 7/5, curr_rep_time := 0, last_down_time := 7/5, feedback := "Great Control!" }, left_metrics := { angle := 0, stage := Stage.DOWN, rep_count := 0, rep_time := 0, min_rep_time := 0, curr_rep_time := 0, last_down_time := 0, feedback := "Maintain Form" }, hist := { right_feedback_count := 0, left_feedback_count := 0 } }

/-- Intermediate state of a concrete run (computed from the embedding). -/
def stateC1 : SysState :=
  { rc := { contracted_threshold := 40, extended_threshold := 160, min_rep_duration := 3/5, state_hold_time := 3/20, hysteresis_margin := 5, right := { angle_history := [179], pending_state := none, pending_state_start := 0, rep_start_time := 0, last_rep_time := 0, current_compliment := "Maintain Form" }, left := { angle_history := [], pending_state := none, pending_state_start := 0, rep_start_time := 0, last_rep_time := 0, current_compliment := "Maintain Form" } }, right_metrics := { angle := 179, stage := Stage.DOWN, rep_count := 0, rep_time := 0, min_rep_time := 0, curr_rep_time := 0, last_down_time := 0, feedback := "Maintain Form" }, left_metrics := { angle := 0, stage := Stage.DOWN, rep_count := 0, rep_time := 0, min_rep_time := 0, curr_rep_time := 0, last_down_time := 0, feedback := "Maintain Form" }, hist := { right_feedback_count := 0, left_feedback_count := 0 } }

/-- Intermediate state of a concrete run (computed from the embedding). -/
def stateC2 : SysState :=
  { rc := { contracted_threshold := 40, extended_threshold := 160, min_rep_duration := 3/5, state_hold_time := 3/20, hysteresis_margin := 5, right := { angle_history := [179, 179], pending_state := none, pending_state_start := 0, rep_start_time := 0, last_rep_time := 0, current_compliment := "Maintain Form" }, left := { angle_history := [], pending_state := none, pending_state_start := 0, rep_start_time := 0, last_rep_time := 0, current_compliment := "Maintain Form" } }, right_metrics := { angle := 179, stage := Stage.DOWN, rep_count := 0, rep_time := 0, min_rep_time := 0, curr_rep_time := 0, last_down_time := 0, feedback := "Maintain Form" }, left_metrics := { angle := 0, stage := Stage.DOWN, rep_count := 0, rep_time := 0, min_rep_time := 0, curr_rep_time := 0, last_down_time := 0, feedback := "Maintain Form" }, hist := { right_feedback_count := 0, left_feedback_count := 0 } }

/-- Intermediate state of a concrete run (computed from the embedding). -/
def stateC3 : SysState :=
  { rc := { contracted_threshold := 40, extended_threshold := 160, min_rep_duration := 3/5, state_hold_time := 3/20, hysteresis_margin := 5, right := { angle_history := [179, 179, 179], pending_state := none, pending_state_start := 0, rep_start_time := 0, last_rep_time := 0, current_compliment := "Maintain Form" }, left := { angle_history := [], pending_state := none, pending_state_start := 0, rep_start_time := 0, last_rep_time := 0, current_compliment := "Maintain Form" } }, right_metrics := { angle := 179, stage := Stage.DOWN, rep_count := 0, rep_time := 0, min_rep_time := 0, curr_rep_time := 0, last_down_time := 0, feedback := "Maintain Form" }, left_metrics := { angle := 0, stage := Stage.DOWN, rep_count := 0, rep_time := 0, min_rep_time := 0, curr_rep_time := 0, last_down_time := 0, feedback := "Maintain Form" }, hist := { right_feedback_count := 0, left_feedback_count := 0 } }

/-- Intermediate state of a concrete run (computed from the embedding). -/
def stateC4 : SysState :=
  { rc := { contracted_threshold := 40, extended_threshold := 160, min_rep_duration := 3/5, state_hold_time := 3/20, hysteresis_margin := 5, right := { angle_history := [179, 179, 179, 179], pending_state := none, pending_state_start := 0, rep_start_time := 0, last_rep_time := 0, current_compliment := "Maintain Form" }, left := { angle_history := [], pending_state := none, pending_state_start := 0, rep_start_time := 0, last_rep_time := 0, current_compliment := "Maintain Form" } }, right_metrics := { angle := 179, stage := Stage.DOWN, rep_count := 0, rep_time := 0, min_rep_time := 0, curr_rep_time := 0, last_down_time := 0, feedback := "Over Extending" }, left_metrics := { angle := 0, stage := Stage.DOWN, rep_count := 0, rep_time := 0, min_rep_time := 0, curr_rep_time := 0, last_down_time := 0, feedback := "Maintain Form" }, hist := { right_feedback_count := 1, left_feedback_count := 0 } }

/-- Intermediate state of a concrete run (computed from the embedding). -/
def stateC5 : SysState :=
  { rc := { contracted_threshold := 40, extended_threshold := 160, min_rep_duration := 3/5, state_hold_time := 3/20, hysteresis_margin := 5, right := { angle_history := [179, 179, 179, 179, 1], pending_state := some (Stage.UP), pending_state_start := 1/5, rep_start_time := 0, last_rep_time := 0, current_compliment := "Maintain Form" }, left := { angle_history := [], pending_state := none, pending_state_start := 0, rep_start_time := 0, last_rep_time := 0, current_compliment := "Maintain Form" } }, right_metrics := { angle := 1, stage := Stage.DOWN, rep_count := 0, rep_time := 0, min_rep_time := 0, curr_rep_time := 0, last_down_time := 0, feedback := "Over Curling" }, left_metrics := { angle := 0, stage := Stage.DOWN, rep_count := 0, rep_time := 0, min_rep_time := 0, curr_rep_time := 0, last_down_time := 0, feedback := "Maintain Form" }, hist := { right_feedback_count := 2, left_feedback_count := 0 } }

lemma evalA1 : sysStep (sysInit Stage.UP) (sampleR 165 0 0) = stateA1 := by
  norm_num +decide [sysStep, processRep, dequePush, bufVelocity,
    determineTargetState, handleStateTransition, provideFormFeedback,
    RepCounter.armGet, RepCounter.armSet, SysState.metricsOf, History.bump,
    metricsInit, RepCounter.init, sampleR, ArmState.init, compliments, sysInit, stateA1]

lemma evalA2 : sysStep stateA1 (sampleR 165 (1/20) 0) = stateA2 := by
  norm_num +decide [sysStep, processRep, dequePush, bufVelocity,
    determineTargetState, handleStateTransition, provideFormFeedback,
    RepCounter.armGet, RepCounter.armSet, SysState.metricsOf, History.bump,
    metricsInit, RepCounter.init, sampleR, ArmState.init, compliments, stateA1, stateA2]

lemma evalA3 : sysStep stateA2 (sampleR 165 (1/10) 0) = stateA3 := by
  norm_num +decide [sysStep, processRep, dequePush, bufVelocity,
    determineTargetState, handleStateTransition, provideFormFeedback,
    RepCounter.armGet, RepCounter.armSet, SysState.metricsOf, History.bump,
    metricsInit, RepCounter.init, sampleR, ArmState.init, compliments, stateA2, stateA3]

lemma evalA4 : sysStep stateA3 (sampleR 165 (3/20) 0) = stateA4 := by
  norm_num +decide [sysStep, processRep, dequePush, bufVelocity,
    determineTargetState, handleStateTransition, provideFormFeedback,
    RepCounter.armGet, RepCounter.armSet, SysState.metricsOf, History.bump,
    metricsInit, RepCounter.init, sampleR, ArmState.init, compliments, stateA3, stateA4]

lemma evalA5 : sysStep stateA4 (sampleR 165 (7/20) 0) = stateA5 := by
  norm_num +decide [sysStep, processRep, dequePush, bufVelocity,
    determineTargetState, handleStateTransition, provideFormFeedback,
    RepCounter.armGet, RepCounter.armSet, SysState.metricsOf, History.bump,
    metricsInit, RepCounter.init, sampleR, ArmState.init, compliments, stateA4, stateA5]

lemma evalB1 : sysStep (sysInit Stage.DOWN) (sampleR 165 0 0) = stateB1 := by
  norm_num +decide [sysStep, processRep, dequePush, bufVelocity,
    determineTargetState, handleStateTransition, provideFormFeedback,
    RepCounter.armGet, RepCounter.armSet, SysState.metricsOf, History.bump,
    metricsInit, RepCounter.init, sampleR, ArmState.init, compliments, sysInit, stateB1]

lemma evalB2 : sysStep stateB1 (sampleR 165 (1/20) 0) = stateB2 := by
  norm_num +decide [sysStep, processRep, dequePush, bufVelocity,
    determineTargetState, handleStateTransition, provideFormFeedback,
    RepCounter.armGet, RepCounter.armSet, SysState.metricsOf, History.bump,
    metricsInit, RepCounter.init, sampleR, ArmState.init, compliments, stateB1, stateB2]

lemma evalB3 : sysStep stateB2 (sampleR 165 (1/10) 0) = stateB3 := by
  norm_num +decide [sysStep, processRep, dequePush, bufVelocity,
    determineTargetState, handleStateTransition, provideFormFeedback,
    RepCounter.armGet, RepCounter.armSet, SysState.metricsOf, History.bump,
    metricsInit, RepCounter.init, sampleR, ArmState.init, compliments, stateB2, stateB3]

lemma evalB4 : sysStep stateB3 (sampleR 165 (3/20) 0) = stateB4 := by
  norm_num +decide [sysStep, processRep, dequePush, bufVelocity,
    determineTargetState, handleStateTransition, provideFormFeedback,
    RepCounter.armGet, RepCounter.armSet, SysState.metricsOf, History.bump,
    metricsInit, RepCounter.init, sampleR, ArmState.init, compliments, stateB3, stateB4]

lemma evalB5 : sysStep stateB4 (sampleR 150 (1/5) 0) = stateB5 := by
  norm_num +decide [sysStep, processRep, dequePush, bufVelocity,
    determineTargetState, handleStateTransition, provideFormFeedback,
    RepCounter.armGet, RepCounter.armSet, SysState.metricsOf, History.bump,
    metricsInit, RepCounter.init, sampleR, ArmState.init, compliments, stateB4, stateB5]

lemma evalB6 : sysStep stateB5 (sampleR 130 (2/5) 0) = stateB6 := by
  norm_num +decide [sysStep, processRep, dequePush, bufVelocity,
    determineTargetState, handleStateTransition, provideFormFeedback,
    RepCounter.armGet, RepCounter.armSet, SysState.metricsOf, History.bump,
    metricsInit, RepCounter.init, sampleR, ArmState.init, compliments, stateB5, stateB6]

lemma evalB7 : sysStep stateB6 (sampleR 100 (3/5) 0) = stateB7 := by
  norm_num +decide [sysStep, processRep, dequePush, bufVelocity,
    determineTargetState, handleStateTransition, provideFormFeedback,
    RepCounter.armGet, RepCounter.armSet, SysState.metricsOf, History.bump,
    metricsInit, RepCounter.init, sampleR, ArmState.init, compliments, stateB6, stateB7]

lemma evalB8 : sysStep stateB7 (sampleR 60 (7/10) 0) = stateB8 := by
  norm_num +decide [sysStep, processRep, dequePush, bufVelocity,
    determineTargetState, handleStateTransition, provideFormFeedback,
    RepCounter.armGet, RepCounter.armSet, SysState.metricsOf, History.bump,
    metricsInit, RepCounter.init, sampleR, ArmState.init, compliments, stateB7, stateB8]

lemma evalB9 : sysStep stateB8 (sampleR 35 (4/5) 0) = stateB9 := by
  norm_num +decide [sysStep, processRep, dequePush, bufVelocity,
    determineTargetState, handleStateTransition, provideFormFeedback,
    RepCounter.armGet, RepCounter.armSet, SysState.metricsOf, History.bump,
    metricsInit, RepCounter.init, sampleR, ArmState.init, compliments, stateB8, stateB9]

lemma evalB10 : sysStep stateB9 (sampleR 33 1 0) = stateB10 := by
  norm_num +decide [sysStep, processRep, dequePush, bufVelocity,
    determineTargetState, handleStateTransition, provideFormFeedback,
    RepCounter.armGet, RepCounter.armSet, SysState.metricsOf, History.bump,
    metricsInit, RepCounter.init, sampleR, ArmState.init, compliments, stateB9, stateB10]

lemma evalB11 : sysStep stateB10 (sampleR 33 (11/10) 0) = stateB11 := by
  norm_num +decide [sysStep, processRep, dequePush, bufVelocity,
    determineTargetState, handleStateTransition, provideFormFeedback,
    RepCounter.armGet, RepCounter.armSet, SysState.metricsOf, History.bump,
    metricsInit, RepCounter.init, sampleR, ArmState.init, compliments, stateB10, stateB11]

lemma evalB12 : sysStep stateB11 (sampleR 50 (6/5) 0) = stateB12 := by
  norm_num +decide [sysStep, processRep, dequePush, bufVelocity,
    determineTargetState, handleStateTransition, provideFormFeedback,
    RepCounter.armGet, RepCounter.armSet, SysState.metricsOf, History.bump,
    metricsInit, RepCounter.init, sampleR, ArmState.init, compliments, stateB11, stateB12]

lemma evalB13p0 : sysStep stateB12 (sampleR 70 (7/5) 0) = stateB13p0 := by
  norm_num +decide [sysStep, processRep, dequePush, bufVelocity,
    determineTargetState, handleStateTransition, provideFormFeedback,
    RepCounter.armGet, RepCounter.armSet, SysState.metricsOf, History.bump,
    metricsInit, RepCounter.init, sampleR, ArmState.init, compliments, stateB12, stateB13p0]

lemma evalB13p1 : sysStep stateB12 (sampleR 70 (7/5) 1) = stateB13p1 := by
  norm_num +decide [sysStep, processRep, dequePush, bufVelocity,
    determineTargetState, handleStateTransition, provideFormFeedback,
    RepCounter.armGet, RepCounter.armSet, SysState.metricsOf, History.bump,
    metricsInit, RepCounter.init, sampleR, ArmState.init, compliments, stateB12, stateB13p1]

lemma evalC1 : sysStep (sysInit Stage.DOWN) (sampleR 179 0 0) = stateC1 := by
  norm_num +decide [sysStep, processRep, dequePush, bufVelocity,
    determineTargetState, handleStateTransition, provideFormFeedback,
    RepCounter.armGet, RepCounter.armSet, SysState.metricsOf, History.bump,
    metricsInit, RepCounter.init, sampleR, ArmState.init, compliments, sysInit, stateC1]

lemma evalC2 : sysStep stateC1 (sampleR 179 (1/20) 0) = stateC2 := by
  norm_num +decide [sysStep, processRep, dequePush, bufVelocity,
    determineTargetState, handleStateTransition, provideFormFeedback,
    RepCounter.armGet, RepCounter.armSet, SysState.metricsOf, History.bump,
    metricsInit, RepCounter.init, sampleR, ArmState.init, compliments, stateC1, stateC2]

lemma evalC3 : sysStep stateC2 (sampleR 179 (1/10) 0) = stateC3 := by
  norm_num +decide [sysStep, processRep, dequePush, bufVelocity,
    determineTargetState, handleStateTransition, provideFormFeedback,
    RepCounter.armGet, RepCounter.armSet, SysState.metricsOf, History.bump,
    metricsInit, RepCounter.init, sampleR, ArmState.init, compliments, stateC2, stateC3]

lemma evalC4 : sysStep stateC3 (sampleR 179 (3/20) 0) = stateC4 := by
  norm_num +decide [sysStep, processRep, dequePush, bufVelocity,
    determineTargetState, handleStateTransition, provideFormFeedback,
    RepCounter.armGet, RepCounter.armSet, SysState.metricsOf, History.bump,
    metricsInit, RepCounter.init, sampleR, ArmState.init, compliments, stateC3, stateC4]

lemma evalC5 : sysStep stateC4 (sampleR 1 (1/5) 0) = stateC5 := by
  norm_num +decide [sysStep, processRep, dequePush, bufVelocity,
    determineTargetState, handleStateTransition, provideFormFeedback,
    RepCounter.armGet, RepCounter.armSet, SysState.metricsOf, History.bump,
    metricsInit, RepCounter.init, sampleR, ArmState.init, compliments, stateC4, stateC5]

lemma runAfirst4_eval : sysRun (sysInit Stage.UP) runAfirst4 = stateA4 := by
  simp only [runAfirst4, sysRun, List.foldl_cons, List.foldl_nil]
  rw [evalA1, evalA2, evalA3, evalA4]

lemma runA_eval : sysRun (sysInit Stage.UP) runAinputs = stateA5 := by
  simp only [runAinputs, runAfirst4, List.cons_append, List.nil_append,
    sysRun, List.foldl_cons, List.foldl_nil]
  rw [evalA1, evalA2, evalA3, evalA4, evalA5]

lemma runBfull0_eval :
    sysRun (sysInit Stage.DOWN) (runBfull 0) = stateB13p0 := by
  simp only [runBfull, runBinputs, List.cons_append, List.nil_append,
    sysRun, List.foldl_cons, List.foldl_nil]
  rw [evalB1, evalB2, evalB3, evalB4, evalB5, evalB6, evalB7, evalB8,
    evalB9, evalB10, evalB11, evalB12, evalB13p0]

lemma runBfull1_eval :
    sysRun (sysInit Stage.DOWN) (runBfull 1) = stateB13p1 := by
  simp only [runBfull, runBinputs, List.cons_append, List.nil_append,
    sysRun, List.foldl_cons, List.foldl_nil]
  rw [evalB1, evalB2, evalB3, evalB4, evalB5, evalB6, evalB7, evalB8,
    evalB9, evalB10, evalB11, evalB12, evalB13p1]

lemma runCfirst4_eval : sysRun (sysInit Stage.DOWN) runCfirst4 = stateC4 := by
  simp only [runCfirst4, sysRun, List.foldl_cons, List.foldl_nil]
  rw [evalC1, evalC2, evalC3, evalC4]

lemma runC_eval : sysRun (sysInit Stage.DOWN) runCinputs = stateC5 := by
  simp only [runCinputs, runCfirst4, List.cons_append, List.nil_append,
    sysRun, List.foldl_cons, List.foldl_nil]
  rw [evalC1, evalC2, evalC3, evalC4, evalC5]

/-! ## C7: `rep_start_time` on commits into `DOWN` -/

/-- C7 counterexample.  In run A the committed stage is still `UP` after
four samples and `DOWN` after the fifth, so the Confirmer commits a
`UP → DOWN` transition at time 7/20 — yet `rep_start_time` for that limb
stays 0 instead of being set to the commit time: the `elif` in
`_handle_state_transition` skips the `new_stage == DOWN` case whenever
`prev_stage == UP`. -/
theorem rep_start_time_counterexample :
    (sysRun (sysInit Stage.UP) runAfirst4).right_metrics.stage = Stage.UP ∧
    (sysRun (sysInit Stage.UP) runAinputs).right_metrics.stage = Stage.DOWN ∧
    ((sysRun (sysInit Stage.UP) runAinputs).rc.armGet Arm.RIGHT).rep_start_time
      = 0 ∧
    ((0 : ℚ) = 7/20 → False) := by
  refine ⟨?_, ?_, ?_, by norm_num⟩
  · rw [runAfirst4_eval]; rfl
  · rw [runA_eval]; rfl
  · rw [runA_eval]; rfl

/-- C7 (amended).  A transition committed into `DOWN` records
`rep_start_time = now` exactly when the previous stage is not `UP`; on a
`UP → DOWN` commit the lifecycle code takes the rep-closing branch instead
and `rep_start_time` is left unchanged. -/
theorem rep_start_time_on_down (rc : RepCounter) (arm : Arm) (prev : Stage)
    (m : Metrics) (t : ℚ) (pick : ℕ) :
    (prev ≠ Stage.UP →
      ((handleStateTransition rc arm prev Stage.DOWN m t pick).1.armGet
        arm).rep_start_time = t) ∧
    (prev = Stage.UP →
      ((handleStateTransition rc arm prev Stage.DOWN m t pick).1.armGet
        arm).rep_start_time = (rc.armGet arm).rep_start_time) := by
  constructor
  · intro hprev
    rw [hst_into_down rc arm prev m t pick hprev]
    simp
  · intro hprev
    subst hprev
    simp only [handleStateTransition]
    split_ifs <;> simp

/-- Concrete instance of `rep_start_time_on_down`: a `MOVING_DOWN → DOWN`
commit at time 2 records `rep_start_time = 2`. -/
theorem rep_start_time_on_down_witness :
    (Stage.MOVING_DOWN ≠ Stage.UP) ∧
    ((handleStateTransition (RepCounter.init 40 160) Arm.RIGHT
      Stage.MOVING_DOWN Stage.DOWN (metricsInit Stage.MOVING_DOWN) 2
      0).1.armGet Arm.RIGHT).rep_start_time = 2 := by
  refine ⟨by decide, ?_⟩
  exact (rep_start_time_on_down (RepCounter.init 40 160) Arm.RIGHT
    Stage.MOVING_DOWN (metricsInit Stage.MOVING_DOWN) 2 0).1 (by decide)

/-- Concrete instance of `min_rep_time_tracks`: over run B (one counted
rep) the tracked minimum matches the ghost log's minimum. -/
theorem min_rep_time_tracks_witness :
    (0 < (sysInit Stage.DOWN).rc.min_rep_duration) ∧
    (∀ b, ((sysInit Stage.DOWN).metricsOf b).min_rep_time = 0) ∧
    ((runG (sysInit Stage.DOWN) (runBfull 0)).1.metricsOf
        Arm.RIGHT).min_rep_time =
      qListMin (armReps (runG (sysInit Stage.DOWN) (runBfull 0)).2
        Arm.RIGHT) := by
  refine ⟨by norm_num [sysInit, RepCounter.init], ?_, ?_⟩
  · intro b; cases b <;> rfl
  · exact min_rep_time_tracks (sysInit Stage.DOWN) (runBfull 0) Arm.RIGHT
      (by norm_num [sysInit, RepCounter.init]) (by intro b; cases b <;> rfl)

/-! ## C10: the per-limb reset -/

/-- C10.  `reset_arm` empties the limb's angle buffer, clears the pending
candidate and its start timestamp, and zeroes `rep_start_time`; it leaves
the limb's `last_rep_time` and `current_compliment`, the other limb's
whole state, and every configuration scalar unchanged.  (It receives
neither the metrics nor the history record, so `rep_count`,
`min_rep_time`, the other metric fields and the history counters are
untouched by construction.) -/
theorem reset_arm_frame (rc : RepCounter) (arm : Arm) :
    ((resetArm rc arm).armGet arm).angle_history = [] ∧
    ((resetArm rc arm).armGet arm).pending_state = none ∧
    ((resetArm rc arm).armGet arm).pending_state_start = 0 ∧
    ((resetArm rc arm).armGet arm).rep_start_time = 0 ∧
    ((resetArm rc arm).armGet arm).last_rep_time =
      (rc.armGet arm).last_rep_time ∧
    ((resetArm rc arm).armGet arm).current_compliment =
      (rc.armGet arm).current_compliment ∧
    (∀ b, b ≠ arm → (resetArm rc arm).armGet b = rc.armGet b) ∧
    (resetArm rc arm).contracted_threshold = rc.contracted_threshold ∧
    (resetArm rc arm).extended_threshold = rc.extended_threshold ∧
    (resetArm rc arm).min_rep_duration = rc.min_rep_duration ∧
    (resetArm rc arm).state_hold_time = rc.state_hold_time ∧
    (resetArm rc arm).hysteresis_margin = rc.hysteresis_margin := by
  refine ⟨?_, ?_, ?_, ?_, ?_, ?_, ?_, ?_, ?_, ?_, ?_, ?_⟩ <;>
    simp [resetArm]
  intro b hb
  exact armGet_armSet_other rc arm b _ (fun he => hb he.symm)

/-- Concrete instance of `reset_arm_frame`: resetting the right arm leaves
the left arm's state intact. -/
theorem reset_arm_frame_witness :
    (Arm.LEFT ≠ Arm.RIGHT) ∧
    (resetArm (RepCounter.init 40 160) Arm.RIGHT).armGet Arm.LEFT =
      (RepCounter.init 40 160).armGet Arm.LEFT := by
  refine ⟨by decide, ?_⟩
  exact (reset_arm_frame (RepCounter.init 40 160)
    Arm.RIGHT).2.2.2.2.2.2.1 Arm.LEFT (by decide)

/-! ## C2: the transition Confirmer -/

/-- The classifier target as `process_rep` computes it (lines 72–74). -/
def classifierTarget (rc : RepCounter) (angle : ℚ) (st : Stage) : Stage :=
  determineTargetState rc.hysteresis_margin angle rc.contracted_threshold
    rc.extended_threshold st

/-- C2.  For a sample with a computed velocity (at least 4 buffered
samples): if the classifier target equals the committed stage the pending
candidate is cleared and the stage is unchanged; if the target equals the
pending candidate, the transition commits exactly when the candidate has
been pending for at least `state_hold_time` and the velocity is below 15,
and otherwise stage, candidate and its start timestamp are all unchanged;
if the target differs from the pending candidate, a fresh pending window
starts at the current timestamp and the stage is unchanged; and any change
of the committed stage happens only through the commit case. -/
theorem confirmer_debounce (rc : RepCounter) (arm : Arm) (angle : ℚ)
    (m : Metrics) (t : ℚ) (h : History) (pick : ℕ)
    (h4 : ¬ (pushedBuf rc arm angle).length < 4) :
    (classifierTarget rc angle m.stage = m.stage →
      ((processRep rc arm angle m t h pick).1.armGet arm).pending_state =
        none ∧
      (processRep rc arm angle m t h pick).2.1.stage = m.stage) ∧
    (classifierTarget rc angle m.stage ≠ m.stage →
      (rc.armGet arm).pending_state = some (classifierTarget rc angle m.stage) →
      ((t - (rc.armGet arm).pending_state_start ≥ rc.state_hold_time ∧
          bufVelocity (pushedBuf rc arm angle) < 15 →
        (processRep rc arm angle m t h pick).2.1.stage =
          classifierTarget rc angle m.stage) ∧
       (¬ (t - (rc.armGet arm).pending_state_start ≥ rc.state_hold_time ∧
          bufVelocity (pushedBuf rc arm angle) < 15) →
        (processRep rc arm angle m t h pick).2.1.stage = m.stage ∧
        ((processRep rc arm angle m t h pick).1.armGet arm).pending_state =
          (rc.armGet arm).pending_state ∧
        ((processRep rc arm angle m t h pick).1.armGet arm).pending_state_start
          = (rc.armGet arm).pending_state_start))) ∧
    (classifierTarget rc angle m.stage ≠ m.stage →
      (rc.armGet arm).pending_state ≠ some (classifierTarget rc angle m.stage) →
      ((processRep rc arm angle m t h pick).1.armGet arm).pending_state =
        some (classifierTarget rc angle m.stage) ∧
      ((processRep rc arm angle m t h pick).1.armGet arm).pending_state_start
        = t ∧
      (processRep rc arm angle m t h pick).2.1.stage = m.stage) ∧
    ((processRep rc arm angle m t h pick).2.1.stage ≠ m.stage →
      (classifierTarget rc angle m.stage ≠ m.stage ∧
       (rc.armGet arm).pending_state = some (classifierTarget rc angle m.stage) ∧
       t - (rc.armGet arm).pending_state_start ≥ rc.state_hold_time ∧
       bufVelocity (pushedBuf rc arm angle) < 15 ∧
       (processRep rc arm angle m t h pick).2.1.stage =
         classifierTarget rc angle m.stage)) := by
  rw [processRep_long rc arm angle m t h pick h4]
  simp only [classifierTarget]
  generalize determineTargetState rc.hysteresis_margin angle
      rc.contracted_threshold rc.extended_threshold m.stage = tg
  by_cases htgt : tg = m.stage
  · refine ⟨fun _ => ?_, fun hne => absurd htgt hne, fun hne => absurd htgt hne,
      fun hst => ?_⟩
    · constructor
      · simp [htgt]
      · simp [htgt]
        split_ifs <;> simp
    · exfalso
      apply hst
      simp [htgt]
      split_ifs <;> simp
  · by_cases hp : (rc.armGet arm).pending_state = some tg
    · by_cases hc : t - (rc.armGet arm).pending_state_start ≥
          rc.state_hold_time ∧ bufVelocity (pushedBuf rc arm angle) < 15
      · refine ⟨fun he => absurd he htgt, fun _ _ => ⟨fun _ => ?_,
          fun hnc => absurd hc hnc⟩, fun _ hnp => absurd hp hnp, fun _ => ?_⟩
        · simp only [htgt, hp, hc, ne_eq, not_false_eq_true, if_true,
            and_self, if_pos]
          simp [hst_stage]
          split_ifs with hu <;> simp_all [hst_stage]
        · refine ⟨htgt, hp, hc.1, hc.2, ?_⟩
          simp only [htgt, hp, hc, ne_eq, not_false_eq_true, if_true,
            and_self, if_pos]
          simp [hst_stage]
          split_ifs with hu <;> simp_all [hst_stage]
      · refine ⟨fun he => absurd he htgt, fun _ _ => ⟨fun hcc => absurd hcc hc,
          fun _ => ?_⟩, fun _ hnp => absurd hp hnp, fun hst => ?_⟩
        · simp [htgt, hp, hc]
          split_ifs <;> simp
        · exfalso
          apply hst
          simp [htgt, hp, hc]
          split_ifs <;> simp
    · refine ⟨fun he => absurd he htgt, fun _ hpp => absurd hpp hp,
        fun _ _ => ?_, fun hst => ?_⟩
      · simp [htgt, hp]
        split_ifs <;> simp
      · exfalso
        apply hst
        simp [htgt, hp]
        split_ifs <;> simp

/-- Concrete instance of `confirmer_debounce`: at run A's fifth sample the
pending `DOWN` candidate has been held for 1/5 s ≥ 0.15 s with velocity 0,
so the transition commits. -/
theorem confirmer_debounce_witness :
    (¬ (pushedBuf stateA4.rc Arm.RIGHT 165).length < 4) ∧
    (classifierTarget stateA4.rc 165 stateA4.right_metrics.stage ≠
      stateA4.right_metrics.stage) ∧
    ((stateA4.rc.armGet Arm.RIGHT).pending_state =
      some (classifierTarget stateA4.rc 165 stateA4.right_metrics.stage)) ∧
    ((7/20 : ℚ) - (stateA4.rc.armGet Arm.RIGHT).pending_state_start ≥
        stateA4.rc.state_hold_time ∧
      bufVelocity (pushedBuf stateA4.rc Arm.RIGHT 165) < 15) ∧
    (processRep stateA4.rc Arm.RIGHT 165 stateA4.right_metrics (7/20)
        stateA4.hist 0).2.1.stage =
      classifierTarget stateA4.rc 165 stateA4.right_metrics.stage := by
  have h4 : ¬ (pushedBuf stateA4.rc Arm.RIGHT 165).length < 4 := by
    norm_num +decide [pushedBuf, dequePush, stateA4, RepCounter.armGet]
  have h1 : classifierTarget stateA4.rc 165 stateA4.right_metrics.stage ≠
      stateA4.right_metrics.stage := by
    norm_num +decide [classifierTarget, determineTargetState, stateA4]
  have h2 : (stateA4.rc.armGet Arm.RIGHT).pending_state =
      some (classifierTarget stateA4.rc 165 stateA4.right_metrics.stage) := by
    norm_num +decide [classifierTarget, determineTargetState, stateA4,
      RepCounter.armGet]
  have h3 : (7/20 : ℚ) - (stateA4.rc.armGet Arm.RIGHT).pending_state_start ≥
        stateA4.rc.state_hold_time ∧
      bufVelocity (pushedBuf stateA4.rc Arm.RIGHT 165) < 15 := by
    norm_num +decide [stateA4, RepCounter.armGet, bufVelocity, pushedBuf,
      dequePush]
  exact ⟨h4, h1, h2, h3,
    (((confirmer_debounce stateA4.rc Arm.RIGHT 165 stateA4.right_metrics
      (7/20) stateA4.hist 0 h4).2.1) h1 h2).1 h3⟩

/-! ## C5: the stability buffer -/

/-- Helper: a commit never touches the angle buffer. -/
lemma hst_buffer (rc : RepCounter) (arm : Arm) (prev new : Stage)
    (m : Metrics) (t : ℚ) (pick : ℕ) :
    ((handleStateTransition rc arm prev new m t pick).1.armGet
      arm).angle_history = (rc.armGet arm).angle_history := by
  simp only [handleStateTransition]
  split_ifs <;> simp

/-- Helper: after any `process_rep` call the limb's buffer is exactly the
pushed buffer. -/
lemma processRep_buffer (rc : RepCounter) (arm : Arm) (angle : ℚ)
    (m : Metrics) (t : ℚ) (h : History) (pick : ℕ) :
    ((processRep rc arm angle m t h pick).1.armGet arm).angle_history =
      pushedBuf rc arm angle := by
  by_cases h4 : (pushedBuf rc arm angle).length < 4
  · rw [processRep_short rc arm angle m t h pick h4]
    simp
  · rw [processRep_long rc arm angle m t h pick h4]
    simp only []
    split_ifs <;> simp [hst_buffer]

/-- Helper: the advisor's produced feedback, phrased with the advisor's
own output stage (which it leaves unchanged). -/
lemma pff_feedback_self (rc : RepCounter) (angle : ℚ) (m2 : Metrics)
    (c e : ℚ) (arm : Arm) (h : History) (v t : ℚ) :
    (provideFormFeedback rc angle m2 c e arm h v t).1.feedback =
      (advisorSpec (provideFormFeedback rc angle m2 c e arm h v t).1.stage
        angle c e v (t - (rc.armGet arm).last_rep_time)
        (rc.armGet arm).current_compliment).1 := by
  simp [pff_fst]

/-- Helper: the advisor's history update, phrased with its output stage. -/
lemma pff_snd_self (rc : RepCounter) (angle : ℚ) (m2 : Metrics)
    (c e : ℚ) (arm : Arm) (h : History) (v t : ℚ) :
    (provideFormFeedback rc angle m2 c e arm h v t).2 =
      (if (advisorSpec (provideFormFeedback rc angle m2 c e arm h v t).1.stage
        angle c e v (t - (rc.armGet arm).last_rep_time)
        (rc.armGet arm).current_compliment).2 then h.bump arm else h) := by
  simp [pff_fst, pff_snd]

/-- Helper: once at least 4 samples are buffered, the feedback string and
the history update of a call are exactly the advisor's priority-list
outcome, computed with the buffer velocity of this sample. -/
lemma processRep_advisor (rc : RepCounter) (arm : Arm) (angle : ℚ)
    (m : Metrics) (t : ℚ) (h : History) (pick : ℕ)
    (h4 : ¬ (pushedBuf rc arm angle).length < 4) :
    ((processRep rc arm angle m t h pick).2.1.feedback =
      (advisorSpec (processRep rc arm angle m t h pick).2.1.stage angle
        rc.contracted_threshold rc.extended_threshold
        (bufVelocity (pushedBuf rc arm angle))
        (t - ((processRep rc arm angle m t h pick).1.armGet
          arm).last_rep_time)
        ((processRep rc arm angle m t h pick).1.armGet
          arm).current_compliment).1 ∧
     (processRep rc arm angle m t h pick).2.2 =
      (if (advisorSpec (processRep rc arm angle m t h pick).2.1.stage angle
        rc.contracted_threshold rc.extended_threshold
        (bufVelocity (pushedBuf rc arm angle))
        (t - ((processRep rc arm angle m t h pick).1.armGet
          arm).last_rep_time)
        ((processRep rc arm angle m t h pick).1.armGet
          arm).current_compliment).2 then h.bump arm else h)) := by
  rw [processRep_long rc arm angle m t h pick h4]
  exact ⟨pff_feedback_self _ _ _ _ _ _ _ _ _,
    pff_snd_self _ _ _ _ _ _ _ _ _⟩

/-- C5.  The stability buffer: each call pushes the sample into a buffer
capped at 8 entries with the oldest evicted on overflow; once the pushed
buffer holds at least 4 samples the velocity is
`|newest - fourth_newest| / 3`; with fewer than 4 samples the call records
the raw angle and the buffer and does nothing else (no classification, no
transition evaluation, no feedback, no history change) — and with at
least 4 samples the advisor always runs with exactly that velocity, and
any committed stage change requires that velocity to be below 15. -/
theorem stability_buffer (rc : RepCounter) (arm : Arm) (angle : ℚ)
    (m : Metrics) (t : ℚ) (h : History) (pick : ℕ) :
    ((processRep rc arm angle m t h pick).1.armGet arm).angle_history =
      pushedBuf rc arm angle ∧
    (pushedBuf rc arm angle).length ≤ 8 ∧
    ((rc.armGet arm).angle_history.length = 8 →
      pushedBuf rc arm angle = (rc.armGet arm).angle_history.tail ++ [angle]) ∧
    (∀ (pre : List ℚ) (a b c d : ℚ),
      pushedBuf rc arm angle = pre ++ [a, b, c, d] →
      bufVelocity (pushedBuf rc arm angle) = |d - a| / 3) ∧
    ((pushedBuf rc arm angle).length < 4 →
      processRep rc arm angle m t h pick =
        (rc.armSet arm
          { rc.armGet arm with angle_history := pushedBuf rc arm angle },
         { m with angle := angle }, h)) ∧
    (¬ (pushedBuf rc arm angle).length < 4 →
      ((processRep rc arm angle m t h pick).2.1.feedback =
        (advisorSpec (processRep rc arm angle m t h pick).2.1.stage angle
          rc.contracted_threshold rc.extended_threshold
          (bufVelocity (pushedBuf rc arm angle))
          (t - ((processRep rc arm angle m t h pick).1.armGet
            arm).last_rep_time)
          ((processRep rc arm angle m t h pick).1.armGet
            arm).current_compliment).1 ∧
       (processRep rc arm angle m t h pick).2.2 =
        (if (advisorSpec (processRep rc arm angle m t h pick).2.1.stage angle
          rc.contracted_threshold rc.extended_threshold
          (bufVelocity (pushedBuf rc arm angle))
          (t - ((processRep rc arm angle m t h pick).1.armGet
            arm).last_rep_time)
          ((processRep rc arm angle m t h pick).1.armGet
            arm).current_compliment).2 then h.bump arm else h))) ∧
    (¬ (pushedBuf rc arm angle).length < 4 →
      (processRep rc arm angle m t h pick).2.1.stage ≠ m.stage →
      bufVelocity (pushedBuf rc arm angle) < 15) := by
  refine ⟨processRep_buffer rc arm angle m t h pick, ?_, ?_, ?_, ?_, ?_, ?_⟩
  · simp only [pushedBuf, dequePush]
    split_ifs with hl <;> simp at hl ⊢ <;> omega
  · intro hlen
    simp only [pushedBuf, dequePush]
    rw [if_pos (by simp [hlen])]
    simp [hlen, List.drop_append_of_le_length, List.drop_one]
  · intro pre a b c d heq
    rw [heq]
    have h1 : (pre ++ [a, b, c, d]).length = pre.length + 4 := by simp
    rw [bufVelocity, h1]
    rw [List.getD_append_right _ _ _ _ (by omega),
      List.getD_append_right _ _ _ _ (by omega)]
    have h2 : pre.length + 4 - 1 - pre.length = 3 := by omega
    have h3 : pre.length + 4 - 4 - pre.length = 0 := by omega
    rw [h2, h3]
    rfl
  · exact processRep_short rc arm angle m t h pick
  · intro h4
    exact processRep_advisor rc arm angle m t h pick h4
  · intro h4
    rw [processRep_long rc arm angle m t h pick h4]
    simp only []
    generalize determineTargetState rc.hysteresis_margin angle
        rc.contracted_threshold rc.extended_threshold m.stage = tg
    by_cases htgt : tg = m.stage
    · intro hst
      exfalso
      apply hst
      simp [htgt]
      split_ifs <;> simp
    · by_cases hp : (rc.armGet arm).pending_state = some tg
      · by_cases hc : t - (rc.armGet arm).pending_state_start ≥
            rc.state_hold_time ∧ bufVelocity (pushedBuf rc arm angle) < 15
        · intro _
          exact hc.2
        · intro hst
          exfalso
          apply hst
          simp [htgt, hp, hc]
          split_ifs <;> simp
      · intro hst
        exfalso
        apply hst
        simp [htgt, hp]
        split_ifs <;> simp

/-- Concrete instance of `stability_buffer`: pushing into a full buffer of
8 samples evicts the oldest, and the velocity is the absolute change from
the fourth-newest to the newest sample over 3. -/
theorem stability_buffer_witness :
    ((stateB8.rc.armGet Arm.RIGHT).angle_history.length = 8) ∧
    pushedBuf stateB8.rc Arm.RIGHT 35 =
      (stateB8.rc.armGet Arm.RIGHT).angle_history.tail ++ [35] ∧
    (pushedBuf stateB8.rc Arm.RIGHT 35 =
      [165, 165, 165, 150] ++ [130, 100, 60, 35]) ∧
    bufVelocity (pushedBuf stateB8.rc Arm.RIGHT 35) = |(35 : ℚ) - 130| / 3 := by
  have h8 : (stateB8.rc.armGet Arm.RIGHT).angle_history.length = 8 := by
    decide
  have heq : pushedBuf stateB8.rc Arm.RIGHT 35 =
      [165, 165, 165, 150] ++ [130, 100, 60, 35] := by
    decide
  refine ⟨h8, ?_, heq, ?_⟩
  · exact (stability_buffer stateB8.rc Arm.RIGHT 35 (metricsInit Stage.DOWN) 0
      stateB8.hist 0).2.2.1 h8
  · exact (stability_buffer stateB8.rc Arm.RIGHT 35 (metricsInit Stage.DOWN) 0
      stateB8.hist 0).2.2.2.1 [165, 165, 165, 150] 130 100 60 35 heq

/-! ## C8: the shared per-limb feedback counter -/

@[simp] lemma bump_count_same (h : History) (arm : Arm) :
    (h.bump arm).count arm = h.count arm + 1 := by
  cases arm <;> rfl

lemma bump_count_other (h : History) (arm b : Arm) (hb : b ≠ arm) :
    (h.bump arm).count b = h.count b := by
  cases arm <;> cases b <;> simp_all [History.bump, History.count]

/-- Helper: a `process_rep` call leaves the history unchanged or bumps the
sample's arm counter once. -/
lemma processRep_hist_cases (rc : RepCounter) (arm : Arm) (angle : ℚ)
    (m : Metrics) (t : ℚ) (h : History) (pick : ℕ) :
    (processRep rc arm angle m t h pick).2.2 = h ∨
    (processRep rc arm angle m t h pick).2.2 = h.bump arm := by
  by_cases h4 : (pushedBuf rc arm angle).length < 4
  · left
    rw [processRep_short rc arm angle m t h pick h4]
  · rw [(processRep_advisor rc arm angle m t h pick h4).2]
    split_ifs
    · right; rfl
    · left; rfl

lemma sysStep_hist_mono (s : SysState) (i : Input) (b : Arm) :
    s.hist.count b ≤ (sysStep s i).hist.count b := by
  rw [sysStep_hist]
  rcases processRep_hist_cases s.rc i.arm i.angle (s.metricsOf i.arm) i.time
    s.hist i.pick with he | he <;> rw [he]
  by_cases hb : b = i.arm
  · subst hb
    rw [bump_count_same]
    exact Nat.le_succ _
  · rw [bump_count_other s.hist i.arm b hb]

/-- C8 counterexample.  Run C makes an over-extension warning (sample 4)
and then an over-curl warning (sample 5) on the same limb: both conditions
increment the one shared counter `right_feedback_count` (1 then 2) — there
is no per-condition counter to distinguish them, the counter attribute
name depends only on the arm. -/
theorem distinct_counters_counterexample :
    (sysRun (sysInit Stage.DOWN) runCfirst4).right_metrics.feedback =
      "Over Extending" ∧
    (sysRun (sysInit Stage.DOWN) runCfirst4).hist.right_feedback_count = 1 ∧
    (sysRun (sysInit Stage.DOWN) runCinputs).right_metrics.feedback =
      "Over Curling" ∧
    (sysRun (sysInit Stage.DOWN) runCinputs).hist.right_feedback_count = 2 ∧
    (sysRun (sysInit Stage.DOWN) runCinputs).hist.left_feedback_count = 0 := by
  refine ⟨?_, ?_, ?_, ?_, ?_⟩
  · rw [runCfirst4_eval]; rfl
  · rw [runCfirst4_eval]; rfl
  · rw [runC_eval]; rfl
  · rw [runC_eval]; rfl
  · rw [runC_eval]; rfl

/-- C8 (amended).  Every safety/correction condition increments the single
shared per-limb counter (`{arm}_feedback_count`): per sample the counter
moves by 0 or 1, the other limb's counter never moves, the increment
happens exactly when the sample was classified (≥ 4 buffered samples) and
the advisor's priority list produced a warning outcome, and over any run
the counters are non-decreasing (never reset). -/
theorem feedback_counter_shared (rc : RepCounter) (arm : Arm) (angle : ℚ)
    (m : Metrics) (t : ℚ) (h : History) (pick : ℕ) :
    (h.count arm ≤ (processRep rc arm angle m t h pick).2.2.count arm) ∧
    ((processRep rc arm angle m t h pick).2.2.count arm ≤ h.count arm + 1) ∧
    (∀ b, b ≠ arm →
      (processRep rc arm angle m t h pick).2.2.count b = h.count b) ∧
    ((processRep rc arm angle m t h pick).2.2.count arm = h.count arm + 1 ↔
      (¬ (pushedBuf rc arm angle).length < 4 ∧
       (advisorSpec (processRep rc arm angle m t h pick).2.1.stage angle
         rc.contracted_threshold rc.extended_threshold
         (bufVelocity (pushedBuf rc arm angle))
         (t - ((processRep rc arm angle m t h pick).1.armGet
           arm).last_rep_time)
         ((processRep rc arm angle m t h pick).1.armGet
           arm).current_compliment).2 = true)) ∧
    (∀ (s : SysState) (l : List Input) (b : Arm),
      s.hist.count b ≤ (sysRun s l).hist.count b) := by
  refine ⟨?_, ?_, ?_, ?_, ?_⟩
  · rcases processRep_hist_cases rc arm angle m t h pick with he | he <;>
      rw [he]
    rw [bump_count_same]
    exact Nat.le_succ _
  · rcases processRep_hist_cases rc arm angle m t h pick with he | he <;>
      rw [he]
    · exact Nat.le_succ _
    · rw [bump_count_same]
  · intro b hb
    rcases processRep_hist_cases rc arm angle m t h pick with he | he <;>
      rw [he]
    exact bump_count_other h arm b hb
  · by_cases h4 : (pushedBuf rc arm angle).length < 4
    · rw [processRep_short rc arm angle m t h pick h4]
      constructor
      · intro habs
        exfalso
        have habs2 : h.count arm = h.count arm + 1 := habs
        omega
      · rintro ⟨habs, -⟩
        exact absurd h4 habs
    · rw [(processRep_advisor rc arm angle m t h pick h4).2]
      by_cases hspec : (advisorSpec
          (processRep rc arm angle m t h pick).2.1.stage angle
          rc.contracted_threshold rc.extended_threshold
          (bufVelocity (pushedBuf rc arm angle))
          (t - ((processRep rc arm angle m t h pick).1.armGet
            arm).last_rep_time)
          ((processRep rc arm angle m t h pick).1.armGet
            arm).current_compliment).2 = true
      · rw [if_pos hspec, bump_count_same]
        simp [h4, hspec]
      · rw [if_neg hspec]
        constructor
        · intro habs; exfalso; omega
        · rintro ⟨-, habs⟩
          exact absurd habs hspec
  · intro s l b
    induction l generalizing s with
    | nil => exact le_refl _
    | cons i rest ih =>
        exact le_trans (sysStep_hist_mono s i b) (ih (sysStep s i))

/-- Concrete instance of `feedback_counter_shared`: a right-arm sample
never moves the left counter. -/
theorem feedback_counter_shared_witness :
    (Arm.LEFT ≠ Arm.RIGHT) ∧
    (processRep (sysInit Stage.DOWN).rc Arm.RIGHT 100
        (metricsInit Stage.DOWN) 0 (sysInit Stage.DOWN).hist 0).2.2.count
      Arm.LEFT = (sysInit Stage.DOWN).hist.count Arm.LEFT := by
  refine ⟨by decide, ?_⟩
  exact (feedback_counter_shared (sysInit Stage.DOWN).rc Arm.RIGHT 100
    (metricsInit Stage.DOWN) 0 (sysInit Stage.DOWN).hist 0).2.2.1 Arm.LEFT
    (by decide)

/-! ## C9: determinism up to the random compliment draw -/

/-- Metrics agreement on every field except the feedback string (the only
metrics field that can carry the randomly drawn compliment). -/
def Metrics.obsEq (m n : Metrics) : Prop :=
  m.angle = n.angle ∧ m.stage = n.stage ∧ m.rep_count = n.rep_count ∧
  m.rep_time = n.rep_time ∧ m.min_rep_time = n.min_rep_time ∧
  m.curr_rep_time = n.curr_rep_time ∧ m.last_down_time = n.last_down_time

/-- Per-arm state agreement on every field except the stored compliment. -/
def ArmState.coreEq (a b : ArmState) : Prop :=
  a.angle_history = b.angle_history ∧ a.pending_state = b.pending_state ∧
  a.pending_state_start = b.pending_state_start ∧
  a.rep_start_time = b.rep_start_time ∧ a.last_rep_time = b.last_rep_time

/-- Counter-instance agreement outside the stored compliments. -/
def RepCounter.coreEq (x y : RepCounter) : Prop :=
  x.contracted_threshold = y.contracted_threshold ∧
  x.extended_threshold = y.extended_threshold ∧
  x.min_rep_duration = y.min_rep_duration ∧
  x.state_hold_time = y.state_hold_time ∧
  x.hysteresis_margin = y.hysteresis_margin ∧
  x.right.coreEq y.right ∧ x.left.coreEq y.left

/-- Whole-system agreement outside compliment-carrying strings. -/
def SysState.coreEq (s u : SysState) : Prop :=
  s.rc.coreEq u.rc ∧ s.right_metrics.obsEq u.right_metrics ∧
  s.left_metrics.obsEq u.left_metrics ∧ s.hist = u.hist

lemma coreEq_armGet {x y : RepCounter} (hrc : x.coreEq y) (arm : Arm) :
    (x.armGet arm).coreEq (y.armGet arm) := by
  cases arm
  · exact hrc.2.2.2.2.2.1
  · exact hrc.2.2.2.2.2.2

lemma coreEq_armSet {x y : RepCounter} {a b : ArmState}
    (hrc : x.coreEq y) (arm : Arm) (hab : a.coreEq b) :
    (x.armSet arm a).coreEq (y.armSet arm b) := by
  obtain ⟨h1, h2, h3, h4, h5, hR, hL⟩ := hrc
  cases arm
  · exact ⟨h1, h2, h3, h4, h5, hab, hL⟩
  · exact ⟨h1, h2, h3, h4, h5, hR, hab⟩

/-- Helper: the advisor's counter decision ignores the stored compliment
phrase. -/
lemma advisorSpec_snd_indep (st : Stage) (angle c e v el : ℚ)
    (comp1 comp2 : String) :
    (advisorSpec st angle c e v el comp1).2 =
      (advisorSpec st angle c e v el comp2).2 := by
  simp only [advisorSpec]
  split_ifs <;> rfl

/-- Helper: a commit preserves core agreement; only the stored compliment
can differ between the two runs (it receives the random draw). -/
lemma hst_coreEq (x y : RepCounter) (arm : Arm) (prev new : Stage)
    (m n : Metrics) (t : ℚ) (p q : ℕ) (hrc : x.coreEq y) (hm : m.obsEq n) :
    ((handleStateTransition x arm prev new m t p).1.coreEq
      (handleStateTransition y arm prev new n t q).1) ∧
    ((handleStateTransition x arm prev new m t p).2.obsEq
      (handleStateTransition y arm prev new n t q).2) := by
  obtain ⟨ha, hs, hc, hr, hmm, hcr, hld⟩ := hm
  have hag := coreEq_armGet hrc arm
  obtain ⟨g1, g2, g3, g4, g5⟩ := hag
  obtain ⟨h1, h2, h3, h4, h5, hR, hL⟩ := hrc
  simp only [handleStateTransition]
  rw [← hld, ← h3, ← g4, ← hmm]
  split_ifs <;>
    cases arm <;>
      simp_all [RepCounter.coreEq, ArmState.coreEq, Metrics.obsEq,
        RepCounter.armSet, RepCounter.armGet]

/-- Helper: the advisor preserves metrics agreement outside feedback and
produces identical history updates in two compliment-divergent runs. -/
lemma pff_rel (x y : RepCounter) (angle : ℚ) (m n : Metrics) (c e : ℚ)
    (arm : Arm) (h : History) (v t : ℚ)
    (hlast : (x.armGet arm).last_rep_time = (y.armGet arm).last_rep_time)
    (hm : m.obsEq n) :
    ((provideFormFeedback x angle m c e arm h v t).1.obsEq
      (provideFormFeedback y angle n c e arm h v t).1) ∧
    (provideFormFeedback x angle m c e arm h v t).2 =
      (provideFormFeedback y angle n c e arm h v t).2 := by
  obtain ⟨ha, hs, hc, hr, hmm, hcr, hld⟩ := hm
  constructor
  · rw [pff_fst, pff_fst]
    exact ⟨ha, hs, hc, hr, hmm, hcr, hld⟩
  · rw [pff_snd, pff_snd, hs, hlast, advisorSpec_snd_indep n.stage angle c e v
      (t - (y.armGet arm).last_rep_time) (x.armGet arm).current_compliment
      (y.armGet arm).current_compliment]

/-- Helper: the `curr_rep_time` refresh plus the advisor pass preserve the
relation between two compliment-divergent runs. -/
lemma tail_rel (rcx rcy : RepCounter) (arm : Arm) (angle : ℚ)
    (mx my : Metrics) (c e : ℚ) (h : History) (v t : ℚ)
    (hcore : rcx.coreEq rcy) (hobs : mx.obsEq my) :
    ((provideFormFeedback rcx angle
        (if mx.stage = Stage.UP then
          { mx with curr_rep_time := t - (rcx.armGet arm).rep_start_time }
         else mx) c e arm h v t).1.obsEq
      (provideFormFeedback rcy angle
        (if my.stage = Stage.UP then
          { my with curr_rep_time := t - (rcy.armGet arm).rep_start_time }
         else my) c e arm h v t).1) ∧
    (provideFormFeedback rcx angle
        (if mx.stage = Stage.UP then
          { mx with curr_rep_time := t - (rcx.armGet arm).rep_start_time }
         else mx) c e arm h v t).2 =
      (provideFormFeedback rcy angle
        (if my.stage = Stage.UP then
          { my with curr_rep_time := t - (rcy.armGet arm).rep_start_time }
         else my) c e arm h v t).2 := by
  obtain ⟨ga, gs, gc, gr, gmm, gcr, gld⟩ := hobs
  have hrst : (rcx.armGet arm).rep_start_time =
      (rcy.armGet arm).rep_start_time := (coreEq_armGet hcore arm).2.2.2.1
  have hm2 : (if mx.stage = Stage.UP then
      { mx with curr_rep_time := t - (rcx.armGet arm).rep_start_time }
     else mx).obsEq
      (if my.stage = Stage.UP then
        { my with curr_rep_time := t - (rcy.armGet arm).rep_start_time }
       else my) := by
    rw [← gs]
    split_ifs
    · exact ⟨ga, rfl, gc, gr, gmm, by rw [hrst], gld⟩
    · exact ⟨ga, gs, gc, gr, gmm, gcr, gld⟩
  exact pff_rel rcx rcy angle _ _ c e arm h v t
    (coreEq_armGet hcore arm).2.2.2.2 hm2

/-- Helper: one `process_rep` call preserves the relation between two runs
that agree everywhere outside the compliment strings and may draw
different random compliments. -/
lemma processRep_rel (x y : RepCounter) (arm : Arm) (angle : ℚ)
    (m n : Metrics) (t : ℚ) (h : History) (p q : ℕ)
    (hrc : x.coreEq y) (hm : m.obsEq n) :
    ((processRep x arm angle m t h p).1.coreEq
      (processRep y arm angle n t h q).1) ∧
    ((processRep x arm angle m t h p).2.1.obsEq
      (processRep y arm angle n t h q).2.1) ∧
    (processRep x arm angle m t h p).2.2 =
      (processRep y arm angle n t h q).2.2 := by
  obtain ⟨g1, g2, g3, g4, g5⟩ := coreEq_armGet hrc arm
  have hbuf : pushedBuf x arm angle = pushedBuf y arm angle := by
    rw [pushedBuf, pushedBuf, g1]
  have htg : determineTargetState y.hysteresis_margin angle
      y.contracted_threshold y.extended_threshold n.stage =
      determineTargetState x.hysteresis_margin angle x.contracted_threshold
        x.extended_threshold m.stage := by
    rw [hrc.1, hrc.2.1, hrc.2.2.2.2.1, hm.2.1]
  by_cases h4 : (pushedBuf x arm angle).length < 4
  · have h4y : (pushedBuf y arm angle).length < 4 := by rwa [hbuf] at h4
    rw [processRep_short x arm angle m t h p h4,
      processRep_short y arm angle n t h q h4y]
    exact ⟨coreEq_armSet hrc arm ⟨by rw [hbuf], g2, g3, g4, g5⟩,
      ⟨rfl, hm.2.1, hm.2.2.1, hm.2.2.2.1, hm.2.2.2.2.1, hm.2.2.2.2.2.1,
        hm.2.2.2.2.2.2⟩, rfl⟩
  · have h4y : ¬ (pushedBuf y arm angle).length < 4 := by rwa [hbuf] at h4
    rw [processRep_long x arm angle m t h p h4,
      processRep_long y arm angle n t h q h4y]
    rw [htg, ← hm.2.1, ← hbuf, ← hrc.1, ← hrc.2.1]
    simp only []
    have hrc1 : (x.armSet arm
        { x.armGet arm with angle_history := pushedBuf x arm angle }).coreEq
        (y.armSet arm
        { y.armGet arm with angle_history := pushedBuf x arm angle }) :=
      coreEq_armSet hrc arm ⟨rfl, g2, g3, g4, g5⟩
    have hm1 : (⟨angle, m.stage, m.rep_count, m.rep_time, m.min_rep_time,
        m.curr_rep_time, m.last_down_time, m.feedback⟩ : Metrics).obsEq
        ⟨angle, m.stage, n.rep_count, n.rep_time, n.min_rep_time,
          n.curr_rep_time, n.last_down_time, n.feedback⟩ :=
      ⟨rfl, rfl, hm.2.2.1, hm.2.2.2.1, hm.2.2.2.2.1, hm.2.2.2.2.2.1,
        hm.2.2.2.2.2.2⟩
    by_cases ht1 : determineTargetState x.hysteresis_margin angle
        x.contracted_threshold x.extended_threshold m.stage = m.stage
    · rw [if_neg (not_not_intro ht1), if_neg (not_not_intro ht1)]
      refine ⟨coreEq_armSet hrc1 arm ?_,
        tail_rel _ _ arm angle _ _ _ _ h _ t ?_ hm1⟩
      · simp only [armGet_armSet_same]
        exact ⟨rfl, rfl, g3, g4, g5⟩
      · refine coreEq_armSet hrc1 arm ?_
        simp only [armGet_armSet_same]
        exact ⟨rfl, rfl, g3, g4, g5⟩
    · by_cases hp : (x.armGet arm).pending_state =
          some (determineTargetState x.hysteresis_margin angle
            x.contracted_threshold x.extended_threshold m.stage)
      · have hpy : (y.armGet arm).pending_state =
            some (determineTargetState x.hysteresis_margin angle
              x.contracted_threshold x.extended_threshold m.stage) :=
          g2.symm.trans hp
        by_cases hcnd : t - (x.armGet arm).pending_state_start ≥
            x.state_hold_time ∧ bufVelocity (pushedBuf x arm angle) < 15
        · have hcy : t - (y.armGet arm).pending_state_start ≥
              y.state_hold_time ∧ bufVelocity (pushedBuf x arm angle) < 15 := by
            refine ⟨?_, hcnd.2⟩
            rw [← g3, ← hrc.2.2.2.1]
            exact hcnd.1
          rw [if_pos ht1, if_pos ht1, if_pos hp, if_pos hpy, if_pos hcnd,
            if_pos hcy]
          have hh := hst_coreEq _ _ arm m.stage
            (determineTargetState x.hysteresis_margin angle
              x.contracted_threshold x.extended_threshold m.stage)
            _ _ t p q hrc1 hm1
          exact ⟨hh.1, tail_rel _ _ arm angle _ _ _ _ h _ t hh.1 hh.2⟩
        · have hcy : ¬ (t - (y.armGet arm).pending_state_start ≥
              y.state_hold_time ∧
              bufVelocity (pushedBuf x arm angle) < 15) := by
            intro hh
            apply hcnd
            refine ⟨?_, hh.2⟩
            rw [g3, hrc.2.2.2.1]
            exact hh.1
          rw [if_pos ht1, if_pos ht1, if_pos hp, if_pos hpy, if_neg hcnd,
            if_neg hcy]
          exact ⟨hrc1, tail_rel _ _ arm angle _ _ _ _ h _ t hrc1 hm1⟩
      · have hpy : ¬ (y.armGet arm).pending_state =
            some (determineTargetState x.hysteresis_margin angle
              x.contracted_threshold x.extended_threshold m.stage) :=
          fun hh => hp (g2.trans hh)
        rw [if_pos ht1, if_pos ht1, if_neg hp, if_neg hpy]
        refine ⟨coreEq_armSet hrc1 arm ?_,
          tail_rel _ _ arm angle _ _ _ _ h _ t ?_ hm1⟩
        · simp only [armGet_armSet_same]
          exact ⟨rfl, rfl, rfl, g4, g5⟩
        · refine coreEq_armSet hrc1 arm ?_
          simp only [armGet_armSet_same]
          exact ⟨rfl, rfl, rfl, g4, g5⟩

/-- Helper: one caller iteration preserves the relation for samples equal
in limb, angle and timestamp (the random draws may differ). -/
lemma sysStep_rel (s u : SysState) (i j : Input) (hcore : s.coreEq u)
    (harm : i.arm = j.arm) (hangle : i.angle = j.angle)
    (htime : i.time = j.time) :
    (sysStep s i).coreEq (sysStep u j) := by
  obtain ⟨hrc, hrm, hlm, hh⟩ := hcore
  rcases i with ⟨ia, ib, ic, ip⟩
  rcases j with ⟨ja, jb, jc, jp⟩
  obtain rfl : ia = ja := harm
  obtain rfl : ib = jb := hangle
  obtain rfl : ic = jc := htime
  cases ia
  · simp only [sysStep]
    rw [← hh]
    have hr := processRep_rel s.rc u.rc Arm.RIGHT ib s.right_metrics
      u.right_metrics ic s.hist ip jp hrc hrm
    exact ⟨hr.1, hr.2.1, hlm, hr.2.2⟩
  · simp only [sysStep]
    rw [← hh]
    have hr := processRep_rel s.rc u.rc Arm.LEFT ib s.left_metrics
      u.left_metrics ic s.hist ip jp hrc hlm
    exact ⟨hr.1, hrm, hr.2.1, hr.2.2⟩

/-- Helper: whole runs preserve the relation when the two input sequences
agree on limb, angle and timestamp at every sample. -/
lemma sysRun_rel : ∀ (l₁ l₂ : List Input) (s u : SysState), s.coreEq u →
    l₁.map (fun i => (i.arm, i.angle, i.time)) =
      l₂.map (fun i => (i.arm, i.angle, i.time)) →
    (sysRun s l₁).coreEq (sysRun u l₂) := by
  intro l₁
  induction l₁ with
  | nil =>
      intro l₂ s u hcore hmap
      cases l₂ with
      | nil => exact hcore
      | cons j l => simp at hmap
  | cons i l ih =>
      intro l₂ s u hcore hmap
      cases l₂ with
      | nil => simp at hmap
      | cons j rest =>
          simp only [List.map_cons, List.cons.injEq, Prod.mk.injEq] at hmap
          exact ih rest (sysStep s i) (sysStep u j)
            (sysStep_rel s u i j hcore hmap.1.1 hmap.1.2.1 hmap.1.2.2)
            hmap.2

/-- C9 counterexample.  Run B completes a rep on its 13th sample.  Two
runs fed the identical sequence of (limb, angle, timestamp) samples from
the identical start state end with different feedback strings — the
compliment is drawn by `random.choice` from the global generator (modelled
by the oracle draw), so the feedback output is not a function of the
inputs the claim lists. -/
theorem determinism_counterexample :
    ((runBfull 0).map (fun i => (i.arm, i.angle, i.time)) =
      (runBfull 1).map (fun i => (i.arm, i.angle, i.time))) ∧
    (sysRun (sysInit Stage.DOWN) (runBfull 0)).right_metrics.feedback =
      "Looking Strong!" ∧
    (sysRun (sysInit Stage.DOWN) (runBfull 1)).right_metrics.feedback =
      "Great Control!" ∧
    ("Looking Strong!" ≠ "Great Control!") := by
  refine ⟨rfl, ?_, ?_, by decide⟩
  · rw [runBfull0_eval]; rfl
  · rw [runBfull1_eval]; rfl

/-- C9 (amended).  The core is deterministic given the random draws: runs
from identical state on identical full inputs coincide.  With the draws
free, two runs from states agreeing outside the stored compliments, fed
sequences with identical (limb, angle, timestamp) samples, agree on the
stage, rep counts, every timing field and the history counters — all
outputs except the compliment-carrying feedback string and the stored
compliment itself. -/
theorem deterministic_mod_compliments (s u : SysState) (l₁ l₂ : List Input)
    (hcore : s.coreEq u)
    (hin : l₁.map (fun i => (i.arm, i.angle, i.time)) =
      l₂.map (fun i => (i.arm, i.angle, i.time))) :
    (sysRun s l₁).coreEq (sysRun u l₂) ∧
    (s = u → l₁ = l₂ → sysRun s l₁ = sysRun u l₂) := by
  refine ⟨sysRun_rel l₁ l₂ s u hcore hin, ?_⟩
  rintro rfl rfl
  rfl

/-- Concrete instance of `deterministic_mod_compliments`: the two run-B
variants with different random draws still agree on everything outside
the feedback/compliment strings. -/
theorem deterministic_mod_compliments_witness :
    ((sysInit Stage.DOWN).coreEq (sysInit Stage.DOWN)) ∧
    ((runBfull 0).map (fun i => (i.arm, i.angle, i.time)) =
      (runBfull 1).map (fun i => (i.arm, i.angle, i.time))) ∧
    (sysRun (sysInit Stage.DOWN) (runBfull 0)).coreEq
      (sysRun (sysInit Stage.DOWN) (runBfull 1)) := by
  have h1 : (sysInit Stage.DOWN).coreEq (sysInit Stage.DOWN) :=
    ⟨⟨rfl, rfl, rfl, rfl, rfl, ⟨rfl, rfl, rfl, rfl, rfl⟩,
      ⟨rfl, rfl, rfl, rfl, rfl⟩⟩,
     ⟨rfl, rfl, rfl, rfl, rfl, rfl, rfl⟩,
     ⟨rfl, rfl, rfl, rfl, rfl, rfl, rfl⟩, rfl⟩
  exact ⟨h1, rfl,
    (deterministic_mod_compliments (sysInit Stage.DOWN) (sysInit Stage.DOWN)
      (runBfull 0) (runBfull 1) h1 rfl).1⟩

end RepCounting
